import Mathlib

/-!
Verification of the order-validation and multi-order strategy engine of the
Trading-Bot repository.  The Python source is shallowly embedded: floating
point numbers become rationals, the Binance exchange client becomes an
explicit oracle (`Env`), and every observable side effect (exchange calls,
validation-error logs, spacing warnings, per-chunk progress logs) is recorded
in an action trace.
-/

namespace TradingBot

/-- Validator configuration (`OrderValidator.__init__` in `src/validator.py`),
with the dictionary defaults from the source. -/
structure VConfig where
  minOrderSize : ℚ := 5
  maxOrderSize : ℚ := 100000
  minPrice : ℚ := 1/100
  maxPrice : ℚ := 1000000
  pricePrecision : ℕ := 2
  quantityPrecision : ℕ := 3

/-- Grid configuration (`GridTradingExecutor.__init__` in
`src/advanced/grid_strategy.py`), defaults from the source. -/
structure GridConfig where
  defaultGridLevels : ℕ := 10
  minSpacing : ℚ := 1/2
  maxSpacing : ℚ := 5

/-- TWAP configuration (`TWAPExecutor.__init__` in `src/advanced/twap.py`). -/
structure TwapConfig where
  defaultChunks : ℕ := 5
  defaultInterval : ℕ := 60

/-- Round a rational to the nearest integer with ties to even: the semantics
of Python's builtin `round` used by the validator's formatting helpers. -/
def rheInt (q : ℚ) : ℤ :=
  if Int.fract q < 1/2 then ⌊q⌋
  else if 1/2 < Int.fract q then ⌊q⌋ + 1
  else if ⌊q⌋ % 2 = 0 then ⌊q⌋ else ⌊q⌋ + 1

/-- `OrderValidator.format_price`: round to `price_precision` decimals. -/
def formatPrice (cfg : VConfig) (x : ℚ) : ℚ :=
  (rheInt (x * 10 ^ cfg.pricePrecision) : ℚ) / 10 ^ cfg.pricePrecision

/-- `OrderValidator.format_quantity`: round to `quantity_precision` decimals. -/
def formatQuantity (cfg : VConfig) (x : ℚ) : ℚ :=
  (rheInt (x * 10 ^ cfg.quantityPrecision) : ℚ) / 10 ^ cfg.quantityPrecision

/-- Validation failure reasons: one constructor per distinct error message
produced by `OrderValidator` (plus the grid-spacing rejection emitted by
`create_grid_orders` itself). -/
inductive VErr where
  | symbolEmpty | symbolCharset | symbolSuffix | symbolShort
  | qtyNonpos
  | notionalLow (v : ℚ)
  | notionalHigh (v : ℚ)
  | priceNonpos
  | priceLow (p : ℚ)
  | priceHigh (p : ℚ)
  | badSide
  | badTif
  | gridLowerBad
  | gridUpperBad
  | gridUpperNotAbove
  | gridLevelsLow
  | gridLevelsHigh
  | twapChunksLow
  | twapChunksHigh
  | twapIntervalLow
  | twapIntervalHigh
  | twapChunkTooSmall
  | gridSpacingBelowMin (pct : ℚ)
  deriving DecidableEq

/-- Character class of the regex `[A-Z0-9]`. -/
def isUpAlnum (c : Char) : Bool :=
  (decide ('A' ≤ c) && decide (c ≤ 'Z')) || (decide ('0' ≤ c) && decide (c ≤ '9'))

/-- ASCII uppercase of one character (`str.upper` acts per character). -/
def chUpper (c : Char) : Char :=
  if 'a' ≤ c ∧ c ≤ 'z' then Char.ofNat (c.toNat - 32) else c

/-- Python's `str.upper` for the ASCII strings this engine handles. -/
def strUpper (s : String) : String := ⟨s.data.map chUpper⟩

/-- Python's `re.match(r'^[A-Z0-9]+$', s)` as a boolean: the whole string is a
nonempty run of uppercase alphanumerics, or everything before a single
trailing newline is (in Python, `$` also matches just before a final
newline). -/
def pyMatchUpperAlnum (s : String) : Bool :=
  let cs := s.data
  (!cs.isEmpty && cs.all isUpAlnum) ||
    (cs.getLast? == some '\n' && !cs.dropLast.isEmpty && cs.dropLast.all isUpAlnum)

/-- `OrderValidator.validate_symbol`. -/
def validateSymbol (s : String) : Bool × Option VErr :=
  if s = "" then (false, some .symbolEmpty)
  else if pyMatchUpperAlnum s = false then (false, some .symbolCharset)
  else if List.isSuffixOf "USDT".data s.data = false then (false, some .symbolSuffix)
  else if s.length < 6 then (false, some .symbolShort)
  else (true, none)

/-- `OrderValidator.validate_quantity` (a supplied price triggers the
notional-value check). -/
def validateQuantity (cfg : VConfig) (quantity : ℚ) (price : Option ℚ) :
    Bool × Option VErr :=
  if quantity ≤ 0 then (false, some .qtyNonpos)
  else
    match price with
    | none => (true, none)
    | some p =>
      let notional := quantity * p
      if notional < cfg.minOrderSize then (false, some (.notionalLow notional))
      else if cfg.maxOrderSize < notional then (false, some (.notionalHigh notional))
      else (true, none)

/-- `OrderValidator.validate_price`. -/
def validatePrice (cfg : VConfig) (price : ℚ) : Bool × Option VErr :=
  if price ≤ 0 then (false, some .priceNonpos)
  else if price < cfg.minPrice then (false, some (.priceLow price))
  else if cfg.maxPrice < price then (false, some (.priceHigh price))
  else (true, none)

/-- `OrderValidator.validate_side`. -/
def validateSide (side : String) : Bool × Option VErr :=
  if strUpper side = "BUY" ∨ strUpper side = "SELL" then (true, none)
  else (false, some .badSide)

/-- `OrderValidator.validate_time_in_force`. -/
def validateTimeInForce (tif : String) : Bool × Option VErr :=
  if strUpper tif = "GTC" ∨ strUpper tif = "IOC" ∨ strUpper tif = "FOK" then (true, none)
  else (false, some .badTif)

/-- `OrderValidator.validate_grid_parameters`. -/
def validateGridParameters (cfg : VConfig) (lowerPrice upperPrice : ℚ)
    (gridLevels : ℕ) : Bool × Option VErr :=
  if (validatePrice cfg lowerPrice).1 = false then (false, some .gridLowerBad)
  else if (validatePrice cfg upperPrice).1 = false then (false, some .gridUpperBad)
  else if upperPrice ≤ lowerPrice then (false, some .gridUpperNotAbove)
  else if gridLevels < 2 then (false, some .gridLevelsLow)
  else if 100 < gridLevels then (false, some .gridLevelsHigh)
  else (true, none)

/-- `OrderValidator.validate_twap_parameters`. -/
def validateTwapParameters (cfg : VConfig) (totalQuantity : ℚ) (chunks : ℕ)
    (intervalSeconds : ℕ) : Bool × Option VErr :=
  let vq := validateQuantity cfg totalQuantity none
  if vq.1 = false then (false, vq.2)
  else if chunks < 2 then (false, some .twapChunksLow)
  else if 100 < chunks then (false, some .twapChunksHigh)
  else if intervalSeconds < 1 then (false, some .twapIntervalLow)
  else if 3600 < intervalSeconds then (false, some .twapIntervalHigh)
  else if totalQuantity / (chunks : ℚ) ≤ 0 then (false, some .twapChunkTooSmall)
  else (true, none)

/-- An exchange order response (`OrderResult` of the spec): the named fields
the engine reads from the raw Binance dict. -/
structure Order where
  orderId : ℤ
  status : String
  executedQty : ℚ
  avgPrice : ℚ
  price : ℚ
  origQty : ℚ
  deriving DecidableEq

/-- The argument record of one `futures_create_order` call. -/
structure CreateParams where
  symbol : String
  side : String
  otype : String
  quantity : ℚ
  price : Option ℚ
  stopPrice : Option ℚ
  timeInForce : Option String
  reduceOnly : Bool
  postOnly : Bool
  deriving DecidableEq

/-- Observable actions of the engine: exchange calls, validation-error logs,
the grid-spacing warning, and the per-chunk progress/failure logs of the TWAP
scheduler. -/
inductive Act where
  | create (p : CreateParams)
  | cancel (symbol : String) (orderId : ℤ)
  | logErr (e : Option VErr)
  | warnSpacing (pct : ℚ)
  | chunk (i : ℕ) (size : ℚ)
  | chunkFail (i : ℕ)
  deriving DecidableEq

/-- The exchange oracle: the response to the `k`-th `futures_create_order`
call (`none` models an exchange/transport failure, which the executors catch
and turn into a `None` result), the acknowledgement of a cancel, and the
ticker price fetched by the grid builder. -/
structure Env where
  create : ℕ → Option Order
  cancelOk : String → ℤ → Bool
  ticker : Option ℚ

/-- The `futures_create_order` argument record built by
`MarketOrderExecutor.place_market_order`. -/
def marketParams (cfg : VConfig) (symbol side : String) (quantity : ℚ)
    (reduceOnly : Bool) : CreateParams :=
  ⟨symbol, strUpper side, "MARKET", formatQuantity cfg quantity,
    none, none, none, reduceOnly, false⟩

/-- `MarketOrderExecutor.place_market_order` (`src/market_orders.py`): returns
the optional order response, the action trace, and the updated create-call
counter. -/
def placeMarketOrder (cfg : VConfig) (env : Env) (k : ℕ) (symbol side : String)
    (quantity : ℚ) (reduceOnly : Bool) : Option Order × List Act × ℕ :=
  let v1 := validateSymbol symbol
  if v1.1 = false then (none, [.logErr v1.2], k) else
  let v2 := validateSide side
  if v2.1 = false then (none, [.logErr v2.2], k) else
  let v3 := validateQuantity cfg quantity none
  if v3.1 = false then (none, [.logErr v3.2], k) else
  (env.create k, [.create (marketParams cfg symbol side quantity reduceOnly)], k + 1)

/-- The `futures_create_order` argument record built by
`MarketOrderExecutor.place_limit_order` after formatting. -/
def limitParams (cfg : VConfig) (symbol side : String) (quantity price : ℚ)
    (timeInForce : String) (reduceOnly postOnly : Bool) : CreateParams :=
  ⟨symbol, strUpper side, "LIMIT", formatQuantity cfg quantity,
    some (formatPrice cfg price), none, some (strUpper timeInForce),
    reduceOnly, postOnly⟩

/-- `MarketOrderExecutor.place_limit_order` (`src/market_orders.py`):
validates symbol, side, price, quantity (with notional) and time-in-force in
that order, short-circuiting on the first failure; then formats price and
quantity and issues exactly one exchange call whose raw response is returned
unmodified. -/
def placeLimitOrder (cfg : VConfig) (env : Env) (k : ℕ) (symbol side : String)
    (quantity price : ℚ) (timeInForce : String) (reduceOnly postOnly : Bool) :
    Option Order × List Act × ℕ :=
  let v1 := validateSymbol symbol
  if v1.1 = false then (none, [.logErr v1.2], k) else
  let v2 := validateSide side
  if v2.1 = false then (none, [.logErr v2.2], k) else
  let v3 := validatePrice cfg price
  if v3.1 = false then (none, [.logErr v3.2], k) else
  let v4 := validateQuantity cfg quantity (some price)
  if v4.1 = false then (none, [.logErr v4.2], k) else
  let v5 := validateTimeInForce timeInForce
  if v5.1 = false then (none, [.logErr v5.2], k) else
  (env.create k,
    [.create (limitParams cfg symbol side quantity price timeInForce reduceOnly postOnly)],
    k + 1)

/-- `MarketOrderExecutor.cancel_order`: one cancel call; its acknowledgement
comes from the oracle. -/
def cancelOrder (env : Env) (symbol : String) (orderId : ℤ) : Bool × List Act :=
  (env.cancelOk symbol orderId, [.cancel symbol orderId])

/-- The argument record built by `LimitOrderExecutor.place_stop_market_order`. -/
def stopMarketParams (cfg : VConfig) (symbol side : String)
    (quantity stopPrice : ℚ) (reduceOnly : Bool) : CreateParams :=
  ⟨symbol, strUpper side, "STOP_MARKET", formatQuantity cfg quantity,
    none, some (formatPrice cfg stopPrice), none, reduceOnly, false⟩

/-- `LimitOrderExecutor.place_stop_market_order` (`src/limit_orders.py`). -/
def placeStopMarketOrder (cfg : VConfig) (env : Env) (k : ℕ)
    (symbol side : String) (quantity stopPrice : ℚ) (reduceOnly : Bool) :
    Option Order × List Act × ℕ :=
  let v1 := validateSymbol symbol
  if v1.1 = false then (none, [.logErr v1.2], k) else
  let v2 := validateSide side
  if v2.1 = false then (none, [.logErr v2.2], k) else
  let v3 := validatePrice cfg stopPrice
  if v3.1 = false then (none, [.logErr v3.2], k) else
  let v4 := validateQuantity cfg quantity none
  if v4.1 = false then (none, [.logErr v4.2], k) else
  (env.create k,
    [.create (stopMarketParams cfg symbol side quantity stopPrice reduceOnly)], k + 1)

/-- The argument record built by `LimitOrderExecutor.place_take_profit_order`:
market-style when no limit price is supplied, limit-style (with forced GTC)
otherwise. -/
def takeProfitParams (cfg : VConfig) (symbol side : String)
    (quantity stopPrice : ℚ) (price : Option ℚ) (reduceOnly : Bool) : CreateParams :=
  ⟨symbol, strUpper side,
    (match price with | none => "TAKE_PROFIT_MARKET" | some _ => "TAKE_PROFIT"),
    formatQuantity cfg quantity,
    (match price with | none => none | some pr => some (formatPrice cfg pr)),
    some (formatPrice cfg stopPrice),
    (match price with | none => none | some _ => some "GTC"),
    reduceOnly, false⟩

/-- `LimitOrderExecutor.place_take_profit_order` (`src/limit_orders.py`). -/
def placeTakeProfitOrder (cfg : VConfig) (env : Env) (k : ℕ)
    (symbol side : String) (quantity stopPrice : ℚ) (price : Option ℚ)
    (reduceOnly : Bool) : Option Order × List Act × ℕ :=
  let v1 := validateSymbol symbol
  if v1.1 = false then (none, [.logErr v1.2], k) else
  let v2 := validateSide side
  if v2.1 = false then (none, [.logErr v2.2], k) else
  let v3 := validatePrice cfg stopPrice
  if v3.1 = false then (none, [.logErr v3.2], k) else
  let v4 := validateQuantity cfg quantity none
  if v4.1 = false then (none, [.logErr v4.2], k) else
  (env.create k,
    [.create (takeProfitParams cfg symbol side quantity stopPrice price reduceOnly)],
    k + 1)

/-- The two-leg body of `place_oco_order` (its `try:` block): place the
take-profit leg; on failure return nothing further; otherwise place the
stop-loss leg, and on its failure cancel the already-placed take-profit leg
by its order id before reporting failure. -/
def placeOcoLegs (cfg : VConfig) (env : Env) (symbol side : String)
    (quantity takeProfitPrice stopLossPrice : ℚ) :
    Option (Order × Order) × List Act :=
  let tp := placeTakeProfitOrder cfg env 0 symbol side quantity takeProfitPrice none true
  match tp.1 with
  | none => (none, tp.2.1)
  | some tpOrder =>
    let sl := placeStopMarketOrder cfg env tp.2.2 symbol side quantity stopLossPrice true
    match sl.1 with
    | none =>
      let c := cancelOrder env symbol tpOrder.orderId
      (none, tp.2.1 ++ sl.2.1 ++ c.2)
    | some slOrder => (some (tpOrder, slOrder), tp.2.1 ++ sl.2.1)

/-- `OCOOrderExecutor.place_oco_order` (`src/advanced/oco.py`): validate
symbol, side, quantity and both prices; enforce the side-specific
price-ordering invariant; place the take-profit leg, then the stop-loss leg,
cancelling the take-profit leg if the stop-loss leg fails. -/
def placeOcoOrder (cfg : VConfig) (env : Env) (symbol side : String)
    (quantity takeProfitPrice stopLossPrice : ℚ) :
    Option (Order × Order) × List Act :=
  let v1 := validateSymbol symbol
  if v1.1 = false then (none, [.logErr v1.2]) else
  let v2 := validateSide side
  if v2.1 = false then (none, [.logErr v2.2]) else
  let v3 := validateQuantity cfg quantity none
  if v3.1 = false then (none, [.logErr v3.2]) else
  let v4 := validatePrice cfg takeProfitPrice
  if v4.1 = false then (none, [.logErr v4.2]) else
  let v5 := validatePrice cfg stopLossPrice
  if v5.1 = false then (none, [.logErr v5.2]) else
  if strUpper side = "SELL" then
    if takeProfitPrice ≤ stopLossPrice then (none, []) else
    placeOcoLegs cfg env symbol side quantity takeProfitPrice stopLossPrice
  else
    if stopLossPrice ≤ takeProfitPrice then (none, []) else
    placeOcoLegs cfg env symbol side quantity takeProfitPrice stopLossPrice

/-- Sum of the `executedQty` fields of a list of order responses. -/
def sumExecQty (os : List Order) : ℚ := (os.map Order.executedQty).sum

/-- The chunk loop of `TWAPExecutor.execute_twap_order` (`use_limit=False`
path, identical to the loop of `execute_twap_order_async`): `r` chunks remain,
`i` is the current chunk index, `os` the orders executed so far, `k` the
create-call counter.  The final chunk's size is recomputed from the executed
quantities accumulated so far. -/
def twapLoop (cfg : VConfig) (env : Env) (symbol side : String)
    (totalQuantity : ℚ) (chunks : ℕ) :
    ℕ → ℕ → List Order → ℕ → List Order × List Act × ℕ
  | 0, _, os, k => (os, [], k)
  | r + 1, i, os, k =>
    let size := if i = chunks - 1
      then formatQuantity cfg (totalQuantity - sumExecQty os)
      else formatQuantity cfg (totalQuantity / (chunks : ℚ))
    let pm := placeMarketOrder cfg env k symbol side size false
    let osNext := match pm.1 with | some o => os ++ [o] | none => os
    let failActs := match pm.1 with | some _ => [] | none => [Act.chunkFail i]
    let rest := twapLoop cfg env symbol side totalQuantity chunks r (i + 1) osNext pm.2.2
    (rest.1, Act.chunk i size :: pm.2.1 ++ failActs ++ rest.2.1, rest.2.2)

/-- `TWAPExecutor.execute_twap_order` (`src/advanced/twap.py`, market-order
path): validate the TWAP parameters, symbol and side, then run the chunk
loop; a `none`/zero argument falls back to the configured default exactly as
Python's `chunks or self.default_chunks`. -/
def executeTwapOrder (cfg : VConfig) (tcfg : TwapConfig) (env : Env)
    (symbol side : String) (totalQuantity : ℚ)
    (chunksArg intervalArg : Option ℕ) : Option (List Order) × List Act :=
  let chunks := match chunksArg with
    | none => tcfg.defaultChunks
    | some n => if n = 0 then tcfg.defaultChunks else n
  let interval := match intervalArg with
    | none => tcfg.defaultInterval
    | some n => if n = 0 then tcfg.defaultInterval else n
  let v1 := validateTwapParameters cfg totalQuantity chunks interval
  if v1.1 = false then (none, [.logErr v1.2]) else
  let v2 := validateSymbol symbol
  if v2.1 = false then (none, [.logErr v2.2]) else
  let v3 := validateSide side
  if v3.1 = false then (none, [.logErr v3.2]) else
  let r := twapLoop cfg env symbol side totalQuantity chunks chunks 0 [] 0
  (some r.1, r.2.1)

/-- `TWAPExecutor._calculate_average_price`: volume-weighted average of the
fills, `0` when nothing executed. -/
def calculateAveragePrice (os : List Order) : ℚ :=
  let totalQty := sumExecQty os
  let totalValue := (os.map fun o => o.executedQty * o.avgPrice).sum
  if 0 < totalQty then totalValue / totalQty else 0

/-- The populated summary dict of `TWAPExecutor.get_twap_summary`. -/
structure TwapSummary where
  totalOrders : ℕ
  totalQuantity : ℚ
  averagePrice : ℚ
  minPrice : ℚ
  maxPrice : ℚ
  priceRange : ℚ
  totalValue : ℚ
  deriving DecidableEq

/-- `TWAPExecutor.get_twap_summary`: the empty dict returned for an empty
order list is modelled as `none`. -/
def getTwapSummary (os : List Order) : Option TwapSummary :=
  if os = [] then none else
  let totalQty := sumExecQty os
  let avg := calculateAveragePrice os
  let prices := (os.filter fun o => decide (o.avgPrice ≠ 0)).map Order.avgPrice
  let minP := match prices with | [] => 0 | p :: ps => ps.foldl min p
  let maxP := match prices with | [] => 0 | p :: ps => ps.foldl max p
  some ⟨os.length, totalQty, avg, minP, maxP, maxP - minP, totalQty * avg⟩

/-- The evenly spaced price ladder generated by
`GridTradingExecutor.create_grid_orders` (lines 93-98 of
`src/advanced/grid_strategy.py`): `levels` prices from the lower to the upper
bound, each formatted to the configured price precision. -/
def gridPriceList (cfg : VConfig) (lowerPrice upperPrice : ℚ) (gridLevels : ℕ) :
    List ℚ :=
  let gridSpacing := (upperPrice - lowerPrice) / ((gridLevels : ℚ) - 1)
  (List.range gridLevels).map fun (i : ℕ) =>
    formatPrice cfg (lowerPrice + (i : ℚ) * gridSpacing)

/-- The success dict returned by `GridTradingExecutor.create_grid_orders`. -/
structure GridResult where
  symbol : String
  mode : String
  gridLevels : ℕ
  lowerPrice : ℚ
  upperPrice : ℚ
  currentPrice : ℚ
  gridPrices : List ℚ
  buyOrders : List Order
  sellOrders : List Order
  totalOrders : ℕ

/-- The `neutral`-mode placement loop of `create_grid_orders`: maker-only BUY
limits strictly below the current price, maker-only SELL limits strictly
above, levels equal to the current price skipped. -/
def gridLoopNeutral (cfg : VConfig) (env : Env) (symbol : String)
    (qtyPerLevel currentPrice : ℚ) :
    List ℚ → ℕ → List Order × List Order × List Act × ℕ
  | [], k => ([], [], [], k)
  | p :: ps, k =>
    if p < currentPrice then
      let pl := placeLimitOrder cfg env k symbol "BUY" qtyPerLevel p "GTC" false true
      let rest := gridLoopNeutral cfg env symbol qtyPerLevel currentPrice ps pl.2.2
      ((match pl.1 with | some o => o :: rest.1 | none => rest.1),
        rest.2.1, pl.2.1 ++ rest.2.2.1, rest.2.2.2)
    else if currentPrice < p then
      let pl := placeLimitOrder cfg env k symbol "SELL" qtyPerLevel p "GTC" false true
      let rest := gridLoopNeutral cfg env symbol qtyPerLevel currentPrice ps pl.2.2
      (rest.1, (match pl.1 with | some o => o :: rest.2.1 | none => rest.2.1),
        pl.2.1 ++ rest.2.2.1, rest.2.2.2)
    else gridLoopNeutral cfg env symbol qtyPerLevel currentPrice ps k

/-- The `long`-mode placement loop of `create_grid_orders`: BUY limits at
levels at or below the current price only. -/
def gridLoopLong (cfg : VConfig) (env : Env) (symbol : String)
    (qtyPerLevel currentPrice : ℚ) :
    List ℚ → ℕ → List Order × List Order × List Act × ℕ
  | [], k => ([], [], [], k)
  | p :: ps, k =>
    if p ≤ currentPrice then
      let pl := placeLimitOrder cfg env k symbol "BUY" qtyPerLevel p "GTC" false true
      let rest := gridLoopLong cfg env symbol qtyPerLevel currentPrice ps pl.2.2
      ((match pl.1 with | some o => o :: rest.1 | none => rest.1),
        rest.2.1, pl.2.1 ++ rest.2.2.1, rest.2.2.2)
    else gridLoopLong cfg env symbol qtyPerLevel currentPrice ps k

/-- The `short`-mode placement loop of `create_grid_orders`: SELL limits at
levels at or above the current price only. -/
def gridLoopShort (cfg : VConfig) (env : Env) (symbol : String)
    (qtyPerLevel currentPrice : ℚ) :
    List ℚ → ℕ → List Order × List Order × List Act × ℕ
  | [], k => ([], [], [], k)
  | p :: ps, k =>
    if currentPrice ≤ p then
      let pl := placeLimitOrder cfg env k symbol "SELL" qtyPerLevel p "GTC" false true
      let rest := gridLoopShort cfg env symbol qtyPerLevel currentPrice ps pl.2.2
      (rest.1, (match pl.1 with | some o => o :: rest.2.1 | none => rest.2.1),
        pl.2.1 ++ rest.2.2.1, rest.2.2.2)
    else gridLoopShort cfg env symbol qtyPerLevel currentPrice ps k

/-- `GridTradingExecutor.create_grid_orders` (`src/advanced/grid_strategy.py`):
validate the grid parameters and symbol, derive and validate the spacing
percent (below minimum rejects, above maximum only warns), build the price
ladder, fetch the ticker price once, then run the mode-specific placement
loop; an unrecognized mode places nothing and still returns a success dict. -/
def createGridOrders (cfg : VConfig) (gcfg : GridConfig) (env : Env)
    (symbol : String) (lowerPrice upperPrice totalQuantity : ℚ)
    (levelsArg : Option ℕ) (mode : String) : Option GridResult × List Act :=
  let gridLevels := match levelsArg with
    | none => gcfg.defaultGridLevels
    | some n => if n = 0 then gcfg.defaultGridLevels else n
  let v1 := validateGridParameters cfg lowerPrice upperPrice gridLevels
  if v1.1 = false then (none, [.logErr v1.2]) else
  let v2 := validateSymbol symbol
  if v2.1 = false then (none, [.logErr v2.2]) else
  let gridSpacing := (upperPrice - lowerPrice) / ((gridLevels : ℚ) - 1)
  let spacingPercent := gridSpacing / lowerPrice * 100
  if spacingPercent < gcfg.minSpacing then
    (none, [.logErr (some (.gridSpacingBelowMin spacingPercent))]) else
  let warnActs := if gcfg.maxSpacing < spacingPercent
    then [Act.warnSpacing spacingPercent] else []
  let qtyPerLevel := formatQuantity cfg (totalQuantity / (gridLevels : ℚ))
  let gridPrices := gridPriceList cfg lowerPrice upperPrice gridLevels
  match env.ticker with
  | none => (none, warnActs)
  | some currentPrice =>
    let res :=
      if mode = "neutral" then
        gridLoopNeutral cfg env symbol qtyPerLevel currentPrice gridPrices 0
      else if mode = "long" then
        gridLoopLong cfg env symbol qtyPerLevel currentPrice gridPrices 0
      else if mode = "short" then
        gridLoopShort cfg env symbol qtyPerLevel currentPrice gridPrices 0
      else ([], [], [], 0)
    (some ⟨symbol, mode, gridLevels, lowerPrice, upperPrice, currentPrice,
        gridPrices, res.1, res.2.1, res.1.length + res.2.1.length⟩,
      warnActs ++ res.2.2.1)

/-- The exchange-call requests recorded in a trace. -/
def createActs (tr : List Act) : List CreateParams :=
  tr.filterMap fun a => match a with | .create p => some p | _ => none

/-- The cancel requests recorded in a trace. -/
def cancelActs (tr : List Act) : List (String × ℤ) :=
  tr.filterMap fun a => match a with | .cancel s i => some (s, i) | _ => none

/-- The per-chunk target sizes logged by the TWAP scheduler in a trace. -/
def chunkSizes (tr : List Act) : List ℚ :=
  tr.filterMap fun a => match a with | .chunk _ s => some s | _ => none

/-- The validator configuration with all source defaults. -/
def defaultConfig : VConfig := {}

/-- The grid configuration with all source defaults. -/
def defaultGridConfig : GridConfig := {}

/-- The TWAP configuration with all source defaults. -/
def defaultTwapConfig : TwapConfig := {}

/-- A concrete filled-order response used to exercise the executors. -/
def sampleOrder (id : ℤ) (qty pr : ℚ) : Order := ⟨id, "FILLED", qty, pr, pr, qty⟩

/-! Rounding lemmas -/

theorem abs_rheInt_sub_le (q : ℚ) : |(rheInt q : ℚ) - q| ≤ 1/2 := by
  have h0 : (0:ℚ) ≤ Int.fract q := Int.fract_nonneg q
  have h1 : Int.fract q < 1 := Int.fract_lt_one q
  have hf : Int.fract q = q - ⌊q⌋ := rfl
  unfold rheInt
  split_ifs with ha hb hc <;>
    (rw [abs_le]; push_cast; constructor <;> linarith)

theorem rheInt_le_add_half (q : ℚ) : (rheInt q : ℚ) ≤ q + 1/2 := by
  have h := (abs_le.mp (abs_rheInt_sub_le q)).2
  linarith

theorem sub_half_le_rheInt (q : ℚ) : q - 1/2 ≤ (rheInt q : ℚ) := by
  have h := (abs_le.mp (abs_rheInt_sub_le q)).1
  linarith

theorem rheInt_intCast (n : ℤ) : rheInt (n : ℚ) = n := by
  unfold rheInt
  simp [Int.fract_intCast, Int.floor_intCast]

theorem rheInt_eq_of_floor (q : ℚ) (f : ℤ) (hle : (f:ℚ) ≤ q) (hlt : q < f + 1) :
    rheInt q = if q - f < 1/2 then f
      else if 1/2 < q - f then f + 1
      else if f % 2 = 0 then f else f + 1 := by
  have hfl : ⌊q⌋ = f := Int.floor_eq_iff.mpr ⟨hle, hlt⟩
  unfold rheInt
  simp only [Int.fract, hfl]

theorem abs_formatQuantity_sub_le (cfg : VConfig) (x : ℚ) :
    |formatQuantity cfg x - x| ≤ 1/2 / 10 ^ cfg.quantityPrecision := by
  have hp : (0:ℚ) < 10 ^ cfg.quantityPrecision := by positivity
  have key : formatQuantity cfg x - x =
      ((rheInt (x * 10 ^ cfg.quantityPrecision) : ℚ) - x * 10 ^ cfg.quantityPrecision) /
        10 ^ cfg.quantityPrecision := by
    unfold formatQuantity
    field_simp
    ring
  rw [key, abs_div, abs_of_pos hp]
  exact div_le_div_of_nonneg_right (abs_rheInt_sub_le _) hp.le

theorem abs_formatPrice_sub_le (cfg : VConfig) (x : ℚ) :
    |formatPrice cfg x - x| ≤ 1/2 / 10 ^ cfg.pricePrecision := by
  have hp : (0:ℚ) < 10 ^ cfg.pricePrecision := by positivity
  have key : formatPrice cfg x - x =
      ((rheInt (x * 10 ^ cfg.pricePrecision) : ℚ) - x * 10 ^ cfg.pricePrecision) /
        10 ^ cfg.pricePrecision := by
    unfold formatPrice
    field_simp
    ring
  rw [key, abs_div, abs_of_pos hp]
  exact div_le_div_of_nonneg_right (abs_rheInt_sub_le _) hp.le

theorem formatPrice_lt_formatPrice (cfg : VConfig) (x y : ℚ)
    (h : 1 / 10 ^ cfg.pricePrecision < y - x) :
    formatPrice cfg x < formatPrice cfg y := by
  have hp : (0:ℚ) < 10 ^ cfg.pricePrecision := by positivity
  have hgap : x * 10 ^ cfg.pricePrecision + 1 < y * 10 ^ cfg.pricePrecision := by
    have hm := (mul_lt_mul_right hp).mpr h
    rw [sub_mul] at hm
    have hone : (1 / 10 ^ cfg.pricePrecision) * (10:ℚ) ^ cfg.pricePrecision = 1 := by
      rw [div_mul_cancel₀]
      exact hp.ne'
    rw [hone] at hm
    linarith
  have h1 := rheInt_le_add_half (x * 10 ^ cfg.pricePrecision)
  have h2 := sub_half_le_rheInt (y * 10 ^ cfg.pricePrecision)
  have hnum : (rheInt (x * 10 ^ cfg.pricePrecision) : ℚ) <
      (rheInt (y * 10 ^ cfg.pricePrecision) : ℚ) := by linarith
  unfold formatPrice
  rw [div_lt_div_iff₀ hp hp]
  exact (mul_lt_mul_right hp).mpr hnum

theorem formatQuantity_eq_intCast (cfg : VConfig) (x : ℚ) (n : ℤ)
    (h : x * 10 ^ cfg.quantityPrecision = (n:ℚ)) :
    formatQuantity cfg x = (n:ℚ) / 10 ^ cfg.quantityPrecision := by
  unfold formatQuantity
  rw [h, rheInt_intCast]

theorem formatPrice_eq_intCast (cfg : VConfig) (x : ℚ) (n : ℤ)
    (h : x * 10 ^ cfg.pricePrecision = (n:ℚ)) :
    formatPrice cfg x = (n:ℚ) / 10 ^ cfg.pricePrecision := by
  unfold formatPrice
  rw [h, rheInt_intCast]

/-! Executor lemmas: behaviour on the all-validations-pass path -/

theorem placeMarketOrder_valid (cfg : VConfig) (env : Env) (k : ℕ)
    (symbol side : String) (quantity : ℚ) (reduceOnly : Bool)
    (h1 : (validateSymbol symbol).1 = true)
    (h2 : (validateSide side).1 = true)
    (h3 : (validateQuantity cfg quantity none).1 = true) :
    placeMarketOrder cfg env k symbol side quantity reduceOnly =
      (env.create k, [.create (marketParams cfg symbol side quantity reduceOnly)], k + 1) := by
  unfold placeMarketOrder
  simp [h1, h2, h3]

theorem placeLimitOrder_valid (cfg : VConfig) (env : Env) (k : ℕ)
    (symbol side : String) (quantity price : ℚ) (timeInForce : String)
    (reduceOnly postOnly : Bool)
    (h1 : (validateSymbol symbol).1 = true)
    (h2 : (validateSide side).1 = true)
    (h3 : (validatePrice cfg price).1 = true)
    (h4 : (validateQuantity cfg quantity (some price)).1 = true)
    (h5 : (validateTimeInForce timeInForce).1 = true) :
    placeLimitOrder cfg env k symbol side quantity price timeInForce reduceOnly postOnly =
      (env.create k,
        [.create (limitParams cfg symbol side quantity price timeInForce reduceOnly postOnly)],
        k + 1) := by
  unfold placeLimitOrder
  simp [h1, h2, h3, h4, h5]

theorem placeStopMarketOrder_valid (cfg : VConfig) (env : Env) (k : ℕ)
    (symbol side : String) (quantity stopPrice : ℚ) (reduceOnly : Bool)
    (h1 : (validateSymbol symbol).1 = true)
    (h2 : (validateSide side).1 = true)
    (h3 : (validatePrice cfg stopPrice).1 = true)
    (h4 : (validateQuantity cfg quantity none).1 = true) :
    placeStopMarketOrder cfg env k symbol side quantity stopPrice reduceOnly =
      (env.create k,
        [.create (stopMarketParams cfg symbol side quantity stopPrice reduceOnly)], k + 1) := by
  unfold placeStopMarketOrder
  simp [h1, h2, h3, h4]

theorem placeTakeProfitOrder_valid (cfg : VConfig) (env : Env) (k : ℕ)
    (symbol side : String) (quantity stopPrice : ℚ) (price : Option ℚ)
    (reduceOnly : Bool)
    (h1 : (validateSymbol symbol).1 = true)
    (h2 : (validateSide side).1 = true)
    (h3 : (validatePrice cfg stopPrice).1 = true)
    (h4 : (validateQuantity cfg quantity none).1 = true) :
    placeTakeProfitOrder cfg env k symbol side quantity stopPrice price reduceOnly =
      (env.create k,
        [.create (takeProfitParams cfg symbol side quantity stopPrice price reduceOnly)],
        k + 1) := by
  unfold placeTakeProfitOrder
  simp [h1, h2, h3, h4]

/-! Trace projection lemmas -/

theorem createActs_append (a b : List Act) :
    createActs (a ++ b) = createActs a ++ createActs b := by
  simp [createActs]

theorem cancelActs_append (a b : List Act) :
    cancelActs (a ++ b) = cancelActs a ++ cancelActs b := by
  simp [cancelActs]

theorem chunkSizes_append (a b : List Act) :
    chunkSizes (a ++ b) = chunkSizes a ++ chunkSizes b := by
  simp [chunkSizes]

theorem createActs_cons_warn (x : ℚ) (tr : List Act) :
    createActs (Act.warnSpacing x :: tr) = createActs tr := by
  simp [createActs]

/-! C9: the symbol validator -/

theorem usdt_suffix_getLast (cs : List Char)
    (h : List.isSuffixOf "USDT".data cs = true) : cs.getLast? = some 'T' := by
  rw [List.isSuffixOf_iff_suffix] at h
  obtain ⟨t, ht⟩ := h
  rw [← ht, List.getLast?_append]
  rfl

/-- C9: the symbol validator accepts a string iff it is non-empty, consists
only of uppercase alphanumerics, ends in the USDT quote-asset suffix, and has
length at least 6; it accepts BTCUSDT and rejects btcusdt, BTC and BTC-USDT,
each time returning false together with a reason. -/
theorem symbol_validator_spec :
    (∀ s : String, (validateSymbol s).1 = true ↔
      (s.data ≠ [] ∧ s.data.all isUpAlnum = true ∧
        List.isSuffixOf "USDT".data s.data = true ∧ 6 ≤ s.length)) ∧
    validateSymbol "BTCUSDT" = (true, none) ∧
    validateSymbol "btcusdt" = (false, some VErr.symbolCharset) ∧
    validateSymbol "BTC" = (false, some VErr.symbolSuffix) ∧
    validateSymbol "BTC-USDT" = (false, some VErr.symbolCharset) := by
  refine ⟨?_, by decide, by decide, by decide, by decide⟩
  intro s
  unfold validateSymbol
  split_ifs with h1 h2 h3 h4
  · subst h1
    simp
  · simp only [Prod.fst]
    constructor
    · intro h
      cases h
    · rintro ⟨hne, hall, hsuf, hlen⟩
      have hem : s.data.isEmpty = false := by
        cases hd : s.data with
        | nil => exact absurd hd hne
        | cons a t => rfl
      rw [pyMatchUpperAlnum] at h2
      simp only [hem, hall, Bool.not_false, Bool.and_self, Bool.true_and,
        Bool.true_or, Bool.or_eq_false_iff] at h2
      cases h2
  · simp only [Prod.fst]
    constructor
    · intro h
      cases h
    · rintro ⟨hne, hall, hsuf, hlen⟩
      rw [h3] at hsuf
      cases hsuf
  · simp only [Prod.fst]
    constructor
    · intro h
      cases h
    · rintro ⟨hne, hall, hsuf, hlen⟩
      omega
  · simp only [Prod.fst, true_iff]
    have hne : s.data ≠ [] := by
      intro hd
      exact h1 (String.ext hd)
  -- `pyMatchUpperAlnum` holds and the suffix check passed, so the
  -- trailing-newline disjunct is impossible and the charset holds everywhere
    have h2t : pyMatchUpperAlnum s = true := by
      cases hb : pyMatchUpperAlnum s with
      | false => exact absurd hb h2
      | true => rfl
    have h3t : List.isSuffixOf "USDT".data s.data = true := by
      cases hb : List.isSuffixOf "USDT".data s.data with
      | false => exact absurd hb h3
      | true => rfl
    refine ⟨hne, ?_, h3t, by omega⟩
    rw [pyMatchUpperAlnum, Bool.or_eq_true] at h2t
    cases h2t with
    | inl h => exact (Bool.and_eq_true_iff.mp h).2
    | inr h =>
      have hlast := usdt_suffix_getLast s.data h3t
      have hnl := (Bool.and_eq_true_iff.mp ((Bool.and_eq_true_iff.mp h).1)).1
      rw [hlast] at hnl
      cases hnl

/-! C6: the place-limit validation pipeline -/

/-- C6: `place_limit_order` runs the validator checks in the fixed order
symbol, side, price, quantity (with notional), time-in-force; it
short-circuits on the first failing check, logging that check's reason and
returning no result with no exchange call and an unchanged call counter;
the checks consume the caller-supplied unrounded price and quantity, and only
once all of them pass is one exchange call issued, carrying the formatted
price and quantity, whose raw response is returned unmodified. -/
theorem place_limit_order_validation_pipeline (cfg : VConfig) (env : Env)
    (k : ℕ) (symbol side : String) (quantity price : ℚ) (timeInForce : String)
    (reduceOnly postOnly : Bool) :
    ((validateSymbol symbol).1 = false →
      placeLimitOrder cfg env k symbol side quantity price timeInForce reduceOnly postOnly =
        (none, [.logErr (validateSymbol symbol).2], k)) ∧
    ((validateSymbol symbol).1 = true → (validateSide side).1 = false →
      placeLimitOrder cfg env k symbol side quantity price timeInForce reduceOnly postOnly =
        (none, [.logErr (validateSide side).2], k)) ∧
    ((validateSymbol symbol).1 = true → (validateSide side).1 = true →
      (validatePrice cfg price).1 = false →
      placeLimitOrder cfg env k symbol side quantity price timeInForce reduceOnly postOnly =
        (none, [.logErr (validatePrice cfg price).2], k)) ∧
    ((validateSymbol symbol).1 = true → (validateSide side).1 = true →
      (validatePrice cfg price).1 = true →
      (validateQuantity cfg quantity (some price)).1 = false →
      placeLimitOrder cfg env k symbol side quantity price timeInForce reduceOnly postOnly =
        (none, [.logErr (validateQuantity cfg quantity (some price)).2], k)) ∧
    ((validateSymbol symbol).1 = true → (validateSide side).1 = true →
      (validatePrice cfg price).1 = true →
      (validateQuantity cfg quantity (some price)).1 = true →
      (validateTimeInForce timeInForce).1 = false →
      placeLimitOrder cfg env k symbol side quantity price timeInForce reduceOnly postOnly =
        (none, [.logErr (validateTimeInForce timeInForce).2], k)) ∧
    ((validateSymbol symbol).1 = true → (validateSide side).1 = true →
      (validatePrice cfg price).1 = true →
      (validateQuantity cfg quantity (some price)).1 = true →
      (validateTimeInForce timeInForce).1 = true →
      placeLimitOrder cfg env k symbol side quantity price timeInForce reduceOnly postOnly =
        (env.create k,
          [.create (limitParams cfg symbol side quantity price timeInForce reduceOnly postOnly)],
          k + 1)) := by
  refine ⟨?_, ?_, ?_, ?_, ?_, ?_⟩
  · intro e1
    unfold placeLimitOrder
    simp [e1]
  · intro h1 e2
    unfold placeLimitOrder
    simp [h1, e2]
  · intro h1 h2 e3
    unfold placeLimitOrder
    simp [h1, h2, e3]
  · intro h1 h2 h3 e4
    unfold placeLimitOrder
    simp [h1, h2, h3, e4]
  · intro h1 h2 h3 h4 e5
    unfold placeLimitOrder
    simp [h1, h2, h3, h4, e5]
  · intro h1 h2 h3 h4 h5
    exact placeLimitOrder_valid cfg env k symbol side quantity price timeInForce
      reduceOnly postOnly h1 h2 h3 h4 h5

/-- Witness for C6: the success arm evaluated at a concrete valid request,
and a rejection arm at a request whose symbol fails. -/
theorem place_limit_order_validation_pipeline_witness :
    (placeLimitOrder defaultConfig ⟨fun _ => some (sampleOrder 7 1 50000), fun _ _ => true, none⟩
        0 "BTCUSDT" "BUY" (1/1000) 50000 "GTC" false false =
      (some (sampleOrder 7 1 50000),
        [.create (limitParams defaultConfig "BTCUSDT" "BUY" (1/1000) 50000 "GTC" false false)],
        1)) ∧
    (placeLimitOrder defaultConfig ⟨fun _ => some (sampleOrder 7 1 50000), fun _ _ => true, none⟩
        0 "btc" "BUY" (1/1000) 50000 "GTC" false false =
      (none, [.logErr (some VErr.symbolCharset)], 0)) := by
  have hp : (validatePrice defaultConfig 50000).1 = true := by
    norm_num [validatePrice, defaultConfig]
  have hq : (validateQuantity defaultConfig (1/1000) (some 50000)).1 = true := by
    norm_num [validateQuantity, defaultConfig]
  constructor
  · exact (place_limit_order_validation_pipeline defaultConfig _ 0 "BTCUSDT" "BUY"
      (1/1000) 50000 "GTC" false false).2.2.2.2.2 (by decide) (by decide) hp hq (by decide)
  · have := (place_limit_order_validation_pipeline defaultConfig
      ⟨fun _ => some (sampleOrder 7 1 50000), fun _ _ => true, none⟩ 0 "btc" "BUY"
      (1/1000) 50000 "GTC" false false).1 (by decide)
    rw [this]
    decide

/-! OCO lemmas and claims C1, C4 -/

theorem placeOcoOrder_valid_eq_legs (cfg : VConfig) (env : Env)
    (symbol side : String) (quantity takeProfitPrice stopLossPrice : ℚ)
    (h1 : (validateSymbol symbol).1 = true)
    (h2 : (validateSide side).1 = true)
    (h3 : (validateQuantity cfg quantity none).1 = true)
    (h4 : (validatePrice cfg takeProfitPrice).1 = true)
    (h5 : (validatePrice cfg stopLossPrice).1 = true)
    (hord : if strUpper side = "SELL" then stopLossPrice < takeProfitPrice
      else takeProfitPrice < stopLossPrice) :
    placeOcoOrder cfg env symbol side quantity takeProfitPrice stopLossPrice =
      placeOcoLegs cfg env symbol side quantity takeProfitPrice stopLossPrice := by
  by_cases hs : strUpper side = "SELL"
  · rw [if_pos hs] at hord
    unfold placeOcoOrder
    simp [h1, h2, h3, h4, h5, hs, not_le.mpr hord]
  · rw [if_neg hs] at hord
    unfold placeOcoOrder
    simp [h1, h2, h3, h4, h5, hs, not_le.mpr hord]

theorem placeOcoLegs_spec (cfg : VConfig) (env : Env)
    (symbol side : String) (quantity takeProfitPrice stopLossPrice : ℚ)
    (h1 : (validateSymbol symbol).1 = true)
    (h2 : (validateSide side).1 = true)
    (h3 : (validateQuantity cfg quantity none).1 = true)
    (h4 : (validatePrice cfg takeProfitPrice).1 = true)
    (h5 : (validatePrice cfg stopLossPrice).1 = true) :
    placeOcoLegs cfg env symbol side quantity takeProfitPrice stopLossPrice =
      match env.create 0 with
      | none =>
        (none, [.create (takeProfitParams cfg symbol side quantity takeProfitPrice none true)])
      | some tpOrder =>
        match env.create 1 with
        | none =>
          (none, [.create (takeProfitParams cfg symbol side quantity takeProfitPrice none true),
            .create (stopMarketParams cfg symbol side quantity stopLossPrice true),
            .cancel symbol tpOrder.orderId])
        | some slOrder =>
          (some (tpOrder, slOrder),
            [.create (takeProfitParams cfg symbol side quantity takeProfitPrice none true),
              .create (stopMarketParams cfg symbol side quantity stopLossPrice true)]) := by
  unfold placeOcoLegs
  rw [placeTakeProfitOrder_valid cfg env 0 symbol side quantity takeProfitPrice none true
    h1 h2 h4 h3]
  cases h0 : env.create 0 with
  | none => simp
  | some tpOrder =>
    simp only
    rw [placeStopMarketOrder_valid cfg env 1 symbol side quantity stopLossPrice true
      h1 h2 h5 h3]
    cases h1c : env.create 1 with
    | none => simp [cancelOrder]
    | some slOrder => simp

/-- C1: with valid inputs, if the take-profit leg yields no result the OCO
call returns no result having issued only that one exchange call (no
stop-loss order, no cancel); if the take-profit leg succeeds and the
stop-loss leg yields no result, the already-placed take-profit order is
cancelled by its order identifier and the call returns no result; when both
legs succeed the call returns the pair of orders. -/
theorem oco_compensating_cancellation (cfg : VConfig) (env : Env)
    (symbol side : String) (quantity takeProfitPrice stopLossPrice : ℚ)
    (h1 : (validateSymbol symbol).1 = true)
    (h2 : (validateSide side).1 = true)
    (h3 : (validateQuantity cfg quantity none).1 = true)
    (h4 : (validatePrice cfg takeProfitPrice).1 = true)
    (h5 : (validatePrice cfg stopLossPrice).1 = true)
    (hord : if strUpper side = "SELL" then stopLossPrice < takeProfitPrice
      else takeProfitPrice < stopLossPrice) :
    (env.create 0 = none →
      placeOcoOrder cfg env symbol side quantity takeProfitPrice stopLossPrice =
        (none, [.create (takeProfitParams cfg symbol side quantity takeProfitPrice none true)])) ∧
    (∀ o, env.create 0 = some o → env.create 1 = none →
      placeOcoOrder cfg env symbol side quantity takeProfitPrice stopLossPrice =
        (none, [.create (takeProfitParams cfg symbol side quantity takeProfitPrice none true),
          .create (stopMarketParams cfg symbol side quantity stopLossPrice true),
          .cancel symbol o.orderId])) ∧
    (∀ o o', env.create 0 = some o → env.create 1 = some o' →
      placeOcoOrder cfg env symbol side quantity takeProfitPrice stopLossPrice =
        (some (o, o'),
          [.create (takeProfitParams cfg symbol side quantity takeProfitPrice none true),
            .create (stopMarketParams cfg symbol side quantity stopLossPrice true)])) := by
  rw [placeOcoOrder_valid_eq_legs cfg env symbol side quantity takeProfitPrice stopLossPrice
    h1 h2 h3 h4 h5 hord,
    placeOcoLegs_spec cfg env symbol side quantity takeProfitPrice stopLossPrice h1 h2 h3 h4 h5]
  refine ⟨?_, ?_, ?_⟩
  · intro h0
    rw [h0]
  · intro o h0 hc1
    rw [h0, hc1]
  · intro o o' h0 hc1
    rw [h0, hc1]

/-- Witness for C1: a SELL-exit OCO on BTCUSDT where the take-profit leg is
accepted (order id 11) and the stop-loss leg fails, so the take-profit order
is cancelled by id 11 and the call returns no result. -/
theorem oco_compensating_cancellation_witness :
    placeOcoOrder defaultConfig
        ⟨fun k => if k = 0 then some (sampleOrder 11 (1/1000) 52000) else none,
          fun _ _ => true, none⟩
        "BTCUSDT" "SELL" (1/1000) 52000 48000 =
      (none, [.create (takeProfitParams defaultConfig "BTCUSDT" "SELL" (1/1000) 52000 none true),
        .create (stopMarketParams defaultConfig "BTCUSDT" "SELL" (1/1000) 48000 true),
        .cancel "BTCUSDT" 11]) := by
  have h3 : (validateQuantity defaultConfig (1/1000) none).1 = true := by
    norm_num [validateQuantity, defaultConfig]
  have h4 : (validatePrice defaultConfig 52000).1 = true := by
    norm_num [validatePrice, defaultConfig]
  have h5 : (validatePrice defaultConfig 48000).1 = true := by
    norm_num [validatePrice, defaultConfig]
  have hord : if strUpper "SELL" = "SELL" then (48000:ℚ) < 52000 else (52000:ℚ) < 48000 := by
    rw [if_pos (by decide : strUpper "SELL" = "SELL")]
    norm_num
  exact (oco_compensating_cancellation defaultConfig
      ⟨fun k => if k = 0 then some (sampleOrder 11 (1/1000) 52000) else none,
        fun _ _ => true, none⟩
      "BTCUSDT" "SELL" (1/1000) 52000 48000
      (by decide) (by decide) h3 h4 h5 hord).2.1
    (sampleOrder 11 (1/1000) 52000) rfl rfl

/-- C4: with the five input validations passing, the side-specific
price-ordering invariant is checked before any leg is placed: a SELL exit
with take-profit not above stop-loss, or a BUY exit with stop-loss not above
take-profit, is rejected with no result and an empty trace (no order placed);
when the invariant holds, the first exchange request issued is the
take-profit leg. -/
theorem oco_price_ordering_invariant (cfg : VConfig) (env : Env)
    (symbol side : String) (quantity takeProfitPrice stopLossPrice : ℚ)
    (h1 : (validateSymbol symbol).1 = true)
    (h2 : (validateSide side).1 = true)
    (h3 : (validateQuantity cfg quantity none).1 = true)
    (h4 : (validatePrice cfg takeProfitPrice).1 = true)
    (h5 : (validatePrice cfg stopLossPrice).1 = true) :
    (strUpper side = "SELL" → takeProfitPrice ≤ stopLossPrice →
      placeOcoOrder cfg env symbol side quantity takeProfitPrice stopLossPrice = (none, [])) ∧
    (strUpper side = "BUY" → stopLossPrice ≤ takeProfitPrice →
      placeOcoOrder cfg env symbol side quantity takeProfitPrice stopLossPrice = (none, [])) ∧
    (strUpper side = "SELL" → stopLossPrice < takeProfitPrice →
      (createActs (placeOcoOrder cfg env symbol side quantity takeProfitPrice stopLossPrice).2).head? =
        some (takeProfitParams cfg symbol side quantity takeProfitPrice none true)) ∧
    (strUpper side = "BUY" → takeProfitPrice < stopLossPrice →
      (createActs (placeOcoOrder cfg env symbol side quantity takeProfitPrice stopLossPrice).2).head? =
        some (takeProfitParams cfg symbol side quantity takeProfitPrice none true)) := by
  refine ⟨?_, ?_, ?_, ?_⟩
  · intro hs hle
    unfold placeOcoOrder
    simp [h1, h2, h3, h4, h5, hs, hle]
  · intro hs hle
    unfold placeOcoOrder
    have hs' : ¬(strUpper side = "SELL") := by rw [hs]; decide
    simp [h1, h2, h3, h4, h5, hs', hle]
  · intro hs hlt
    rw [placeOcoOrder_valid_eq_legs cfg env symbol side quantity takeProfitPrice stopLossPrice
      h1 h2 h3 h4 h5 (by rw [if_pos hs]; exact hlt),
      placeOcoLegs_spec cfg env symbol side quantity takeProfitPrice stopLossPrice h1 h2 h3 h4 h5]
    cases env.create 0 with
    | none => simp [createActs]
    | some o =>
      cases env.create 1 with
      | none => simp [createActs]
      | some o' => simp [createActs]
  · intro hs hlt
    have hs' : ¬(strUpper side = "SELL") := by rw [hs]; decide
    rw [placeOcoOrder_valid_eq_legs cfg env symbol side quantity takeProfitPrice stopLossPrice
      h1 h2 h3 h4 h5 (by rw [if_neg hs']; exact hlt),
      placeOcoLegs_spec cfg env symbol side quantity takeProfitPrice stopLossPrice h1 h2 h3 h4 h5]
    cases env.create 0 with
    | none => simp [createActs]
    | some o =>
      cases env.create 1 with
      | none => simp [createActs]
      | some o' => simp [createActs]

/-- Witness for C4: a BUY exit whose stop-loss (48000) is not above its
take-profit (52000) is rejected with an empty trace, and the same prices on a
SELL exit lead to the take-profit leg being requested first. -/
theorem oco_price_ordering_invariant_witness :
    (placeOcoOrder defaultConfig ⟨fun _ => none, fun _ _ => true, none⟩
        "BTCUSDT" "BUY" (1/1000) 52000 48000 = (none, [])) ∧
    ((createActs (placeOcoOrder defaultConfig ⟨fun _ => none, fun _ _ => true, none⟩
        "BTCUSDT" "SELL" (1/1000) 52000 48000).2).head? =
      some (takeProfitParams defaultConfig "BTCUSDT" "SELL" (1/1000) 52000 none true)) := by
  have h3 : (validateQuantity defaultConfig (1/1000) none).1 = true := by
    norm_num [validateQuantity, defaultConfig]
  have h4 : (validatePrice defaultConfig 52000).1 = true := by
    norm_num [validatePrice, defaultConfig]
  have h5 : (validatePrice defaultConfig 48000).1 = true := by
    norm_num [validatePrice, defaultConfig]
  constructor
  · exact (oco_price_ordering_invariant defaultConfig ⟨fun _ => none, fun _ _ => true, none⟩
      "BTCUSDT" "BUY" (1/1000) 52000 48000 (by decide) (by decide) h3 h4 h5).2.1
      (by decide) (by norm_num)
  · exact (oco_price_ordering_invariant defaultConfig ⟨fun _ => none, fun _ _ => true, none⟩
      "BTCUSDT" "SELL" (1/1000) 52000 48000 (by decide) (by decide) h3 h4 h5).2.2.1
      (by decide) (by norm_num)

/-! Grid lemmas and claims C3, C7, C8, C10 -/

theorem validateGridParameters_bounds (cfg : VConfig) (l u : ℚ) (gl : ℕ)
    (hv : (validateGridParameters cfg l u gl).1 = true) : 2 ≤ gl ∧ gl ≤ 100 := by
  unfold validateGridParameters at hv
  split_ifs at hv with a b c d e
  all_goals simp at hv
  omega

theorem gridLoopNeutral_acts (cfg : VConfig) (env : Env) (symbol : String)
    (qtyPerLevel currentPrice : ℚ)
    (hs : (validateSymbol symbol).1 = true) :
    ∀ (ps : List ℚ) (k : ℕ),
      (∀ p ∈ ps, (validatePrice cfg p).1 = true ∧
        (validateQuantity cfg qtyPerLevel (some p)).1 = true) →
      createActs (gridLoopNeutral cfg env symbol qtyPerLevel currentPrice ps k).2.2.1 =
        ps.filterMap (fun p =>
          if p < currentPrice then
            some (limitParams cfg symbol "BUY" qtyPerLevel p "GTC" false true)
          else if currentPrice < p then
            some (limitParams cfg symbol "SELL" qtyPerLevel p "GTC" false true)
          else none) := by
  intro ps
  induction ps with
  | nil =>
    intro k _
    simp [gridLoopNeutral, createActs]
  | cons p ps ih =>
    intro k h
    have hp := h p (by simp)
    have hrest := fun q hq => h q (List.mem_cons_of_mem p hq)
    unfold gridLoopNeutral
    by_cases hlt : p < currentPrice
    · rw [if_pos hlt]
      rw [placeLimitOrder_valid cfg env k symbol "BUY" qtyPerLevel p "GTC" false true
        hs (by decide) hp.1 hp.2 (by decide)]
      simp only [List.filterMap_cons, if_pos hlt]
      rw [← ih (k + 1) hrest]
      simp [createActs]
    · rw [if_neg hlt]
      by_cases hgt : currentPrice < p
      · rw [if_pos hgt]
        rw [placeLimitOrder_valid cfg env k symbol "SELL" qtyPerLevel p "GTC" false true
          hs (by decide) hp.1 hp.2 (by decide)]
        simp only [List.filterMap_cons, if_neg hlt, if_pos hgt]
        rw [← ih (k + 1) hrest]
        simp [createActs]
      · rw [if_neg hgt]
        simp only [List.filterMap_cons, if_neg hlt, if_neg hgt]
        exact ih k hrest

/-- C7: with grid parameters and symbol valid, a derived spacing percent
strictly below the configured minimum makes `create_grid_orders` reject with
no result and only the error log (so no order is placed and no ticker fetch
result is consumed), while a spacing percent above the configured maximum
with a successful ticker fetch still produces a grid result, emitting the
spacing warning into the trace. -/
theorem grid_spacing_validation (cfg : VConfig) (gcfg : GridConfig) (env : Env)
    (symbol : String) (lowerPrice upperPrice totalQuantity : ℚ) (gl : ℕ)
    (mode : String)
    (hv : (validateGridParameters cfg lowerPrice upperPrice gl).1 = true)
    (hs : (validateSymbol symbol).1 = true) :
    ((upperPrice - lowerPrice) / ((gl:ℚ) - 1) / lowerPrice * 100 < gcfg.minSpacing →
      createGridOrders cfg gcfg env symbol lowerPrice upperPrice totalQuantity (some gl) mode =
        (none, [.logErr (some (.gridSpacingBelowMin
          ((upperPrice - lowerPrice) / ((gl:ℚ) - 1) / lowerPrice * 100)))])) ∧
    (∀ cp : ℚ,
      gcfg.minSpacing ≤ (upperPrice - lowerPrice) / ((gl:ℚ) - 1) / lowerPrice * 100 →
      gcfg.maxSpacing < (upperPrice - lowerPrice) / ((gl:ℚ) - 1) / lowerPrice * 100 →
      env.ticker = some cp →
      (createGridOrders cfg gcfg env symbol lowerPrice upperPrice totalQuantity
          (some gl) mode).1.isSome = true ∧
      Act.warnSpacing ((upperPrice - lowerPrice) / ((gl:ℚ) - 1) / lowerPrice * 100) ∈
        (createGridOrders cfg gcfg env symbol lowerPrice upperPrice totalQuantity
          (some gl) mode).2) := by
  have hgl0 : ¬(gl = 0) := by
    have := validateGridParameters_bounds cfg lowerPrice upperPrice gl hv
    omega
  constructor
  · intro hlt
    unfold createGridOrders
    simp [hv, hs, hgl0, hlt]
  · intro cp hmin hmax ht
    unfold createGridOrders
    simp [hv, hs, hgl0, not_lt.mpr hmin, hmax, ht]

/-- Witness for C7: with default configuration, a 45000-55000 grid with only
2 levels has spacing percent 2000/9 ≈ 22%, above the 5% maximum, so the grid
result is still produced and carries the warning; shrinking the band to
45000-45100 with 100 levels gives spacing percent below 0.5%, which is
rejected outright. -/
theorem grid_spacing_validation_witness :
    (createGridOrders defaultConfig defaultGridConfig
        ⟨fun _ => none, fun _ _ => true, some 50000⟩
        "BTCUSDT" 45000 45100 1 (some 100) "neutral" =
      (none, [.logErr (some (.gridSpacingBelowMin
        ((45100 - 45000) / ((100:ℚ) - 1) / 45000 * 100)))])) ∧
    (createGridOrders defaultConfig defaultGridConfig
        ⟨fun _ => none, fun _ _ => true, some 50000⟩
        "BTCUSDT" 45000 55000 1 (some 2) "neutral").1.isSome = true ∧
    Act.warnSpacing ((55000 - 45000) / ((2:ℚ) - 1) / 45000 * 100) ∈
      (createGridOrders defaultConfig defaultGridConfig
        ⟨fun _ => none, fun _ _ => true, some 50000⟩
        "BTCUSDT" 45000 55000 1 (some 2) "neutral").2 := by
  have hv1 : (validateGridParameters defaultConfig 45000 45100 100).1 = true := by
    norm_num [validateGridParameters, validatePrice, defaultConfig]
  have hv2 : (validateGridParameters defaultConfig 45000 55000 2).1 = true := by
    norm_num [validateGridParameters, validatePrice, defaultConfig]
  refine ⟨?_, ?_⟩
  · exact (grid_spacing_validation defaultConfig defaultGridConfig
      ⟨fun _ => none, fun _ _ => true, some 50000⟩ "BTCUSDT" 45000 45100 1 100 "neutral"
      hv1 (by decide)).1 (by norm_num [defaultGridConfig])
  · exact (grid_spacing_validation defaultConfig defaultGridConfig
      ⟨fun _ => none, fun _ _ => true, some 50000⟩ "BTCUSDT" 45000 55000 1 2 "neutral"
      hv2 (by decide)).2 50000
      (by norm_num [defaultGridConfig]) (by norm_num [defaultGridConfig]) rfl

/-- C10: a grid creation call whose mode is none of neutral, long or short
(other parameters valid, spacing acceptable, ticker fetch succeeding) is not
rejected: it returns a success record whose buy and sell order lists are
empty and whose total order count is zero, while the trace shows no exchange
call and no logged error. -/
theorem grid_unknown_mode_returns_empty (cfg : VConfig) (gcfg : GridConfig)
    (env : Env) (symbol : String) (lowerPrice upperPrice totalQuantity : ℚ)
    (gl : ℕ) (mode : String) (cp : ℚ)
    (hv : (validateGridParameters cfg lowerPrice upperPrice gl).1 = true)
    (hs : (validateSymbol symbol).1 = true)
    (hmin : ¬((upperPrice - lowerPrice) / ((gl:ℚ) - 1) / lowerPrice * 100 < gcfg.minSpacing))
    (ht : env.ticker = some cp)
    (hm1 : mode ≠ "neutral") (hm2 : mode ≠ "long") (hm3 : mode ≠ "short") :
    (createGridOrders cfg gcfg env symbol lowerPrice upperPrice totalQuantity
        (some gl) mode).1 =
      some ⟨symbol, mode, gl, lowerPrice, upperPrice, cp,
        gridPriceList cfg lowerPrice upperPrice gl, [], [], 0⟩ ∧
    createActs (createGridOrders cfg gcfg env symbol lowerPrice upperPrice totalQuantity
        (some gl) mode).2 = [] ∧
    ∀ e, Act.logErr e ∉ (createGridOrders cfg gcfg env symbol lowerPrice upperPrice
        totalQuantity (some gl) mode).2 := by
  have hgl0 : ¬(gl = 0) := by
    have := validateGridParameters_bounds cfg lowerPrice upperPrice gl hv
    omega
  unfold createGridOrders
  by_cases hmax : gcfg.maxSpacing <
      (upperPrice - lowerPrice) / ((gl:ℚ) - 1) / lowerPrice * 100
  · simp [hv, hs, hgl0, hmin, hmax, ht, hm1, hm2, hm3, createActs]
  · simp [hv, hs, hgl0, hmin, hmax, ht, hm1, hm2, hm3, createActs]

/-- Witness for C10: mode "diagonal" on an otherwise valid call returns the
empty success record with no orders and no errors. -/
theorem grid_unknown_mode_returns_empty_witness :
    (createGridOrders defaultConfig defaultGridConfig
        ⟨fun _ => none, fun _ _ => true, some 50000⟩
        "BTCUSDT" 45000 55000 1 (some 10) "diagonal").1 =
      some ⟨"BTCUSDT", "diagonal", 10, 45000, 55000, 50000,
        gridPriceList defaultConfig 45000 55000 10, [], [], 0⟩ ∧
    createActs (createGridOrders defaultConfig defaultGridConfig
        ⟨fun _ => none, fun _ _ => true, some 50000⟩
        "BTCUSDT" 45000 55000 1 (some 10) "diagonal").2 = [] := by
  have hv : (validateGridParameters defaultConfig 45000 55000 10).1 = true := by
    norm_num [validateGridParameters, validatePrice, defaultConfig]
  have h := grid_unknown_mode_returns_empty defaultConfig defaultGridConfig
    ⟨fun _ => none, fun _ _ => true, some 50000⟩ "BTCUSDT" 45000 55000 1 10 "diagonal" 50000
    hv (by decide) (by norm_num [defaultGridConfig]) rfl
    (by decide) (by decide) (by decide)
  exact ⟨h.1, h.2.1⟩

/-- C8: in neutral mode, with the validations passing, the spacing accepted,
the ticker fetch returning the current price, and every ladder level passing
the per-order price and notional checks, the exchange requests issued are
exactly: a maker-only (post-only) GTC BUY limit at each grid price strictly
below the current price and a maker-only GTC SELL limit at each grid price
strictly above it, in ladder order, with levels equal to the current price
skipped. -/
theorem grid_neutral_mode_policy (cfg : VConfig) (gcfg : GridConfig) (env : Env)
    (symbol : String) (lowerPrice upperPrice totalQuantity : ℚ) (gl : ℕ) (cp : ℚ)
    (hv : (validateGridParameters cfg lowerPrice upperPrice gl).1 = true)
    (hs : (validateSymbol symbol).1 = true)
    (hmin : ¬((upperPrice - lowerPrice) / ((gl:ℚ) - 1) / lowerPrice * 100 < gcfg.minSpacing))
    (ht : env.ticker = some cp)
    (hins : ∀ p ∈ gridPriceList cfg lowerPrice upperPrice gl,
      (validatePrice cfg p).1 = true ∧
      (validateQuantity cfg (formatQuantity cfg (totalQuantity / (gl:ℚ))) (some p)).1 = true) :
    createActs (createGridOrders cfg gcfg env symbol lowerPrice upperPrice totalQuantity
        (some gl) "neutral").2 =
      (gridPriceList cfg lowerPrice upperPrice gl).filterMap (fun p =>
        if p < cp then
          some (limitParams cfg symbol "BUY"
            (formatQuantity cfg (totalQuantity / (gl:ℚ))) p "GTC" false true)
        else if cp < p then
          some (limitParams cfg symbol "SELL"
            (formatQuantity cfg (totalQuantity / (gl:ℚ))) p "GTC" false true)
        else none) := by
  have hgl0 : ¬(gl = 0) := by
    have := validateGridParameters_bounds cfg lowerPrice upperPrice gl hv
    omega
  have hloop := gridLoopNeutral_acts cfg env symbol
    (formatQuantity cfg (totalQuantity / (gl:ℚ))) cp hs
    (gridPriceList cfg lowerPrice upperPrice gl) 0 hins
  have hw : ∀ x : ℚ, createActs [Act.warnSpacing x] = [] := by
    intro x
    simp [createActs]
  unfold createGridOrders
  by_cases hmax : gcfg.maxSpacing <
      (upperPrice - lowerPrice) / ((gl:ℚ) - 1) / lowerPrice * 100
  · simp [hv, hs, hgl0, hmin, hmax, ht, createActs_append, createActs_cons_warn, hw, hloop]
  · simp [hv, hs, hgl0, hmin, hmax, ht, createActs_append, createActs_cons_warn, hw, hloop]

/-- C3 (amended): for every grid with at least two levels the generated price
sequence has exactly `levels` elements, its first element is the formatted
lower bound and its last the formatted upper bound, each within half a
price-precision unit of the respective bound; and whenever the grid spacing
exceeds one price-precision unit the sequence is strictly increasing. -/
theorem grid_price_ladder_shape (cfg : VConfig) (lowerPrice upperPrice : ℚ)
    (gl : ℕ) (hgl : 2 ≤ gl) :
    (gridPriceList cfg lowerPrice upperPrice gl).length = gl ∧
    (gridPriceList cfg lowerPrice upperPrice gl).head? =
      some (formatPrice cfg lowerPrice) ∧
    (gridPriceList cfg lowerPrice upperPrice gl).getLast? =
      some (formatPrice cfg upperPrice) ∧
    |formatPrice cfg lowerPrice - lowerPrice| ≤ 1/2 / 10 ^ cfg.pricePrecision ∧
    |formatPrice cfg upperPrice - upperPrice| ≤ 1/2 / 10 ^ cfg.pricePrecision ∧
    (1 / 10 ^ cfg.pricePrecision < (upperPrice - lowerPrice) / ((gl:ℚ) - 1) →
      (gridPriceList cfg lowerPrice upperPrice gl).Pairwise (· < ·)) := by
  obtain ⟨m, rfl⟩ : ∃ m, gl = m + 1 := ⟨gl - 1, by omega⟩
  have hm : 1 ≤ m := by omega
  have hm0 : ((m:ℚ)) ≠ 0 := by
    intro h
    have : m = 0 := by exact_mod_cast h
    omega
  refine ⟨by simp [gridPriceList], ?_, ?_, abs_formatPrice_sub_le cfg lowerPrice,
    abs_formatPrice_sub_le cfg upperPrice, ?_⟩
  · rw [gridPriceList, List.range_succ_eq_map]
    simp
  · rw [gridPriceList, List.range_succ, List.map_append, List.map_cons, List.map_nil,
      List.getLast?_concat]
    simp only [Option.some.injEq]
    push_cast
    field_simp
  · intro hsp
    rw [gridPriceList, List.pairwise_map]
    have hppos : (0:ℚ) < 1 / 10 ^ cfg.pricePrecision := by positivity
    apply List.Pairwise.imp_of_mem ?_ (List.pairwise_lt_range (m + 1))
    intro i j _ _ hij
    apply formatPrice_lt_formatPrice
    have hone : (1:ℚ) ≤ (j:ℚ) - (i:ℚ) := by
      have : (i:ℚ) + 1 ≤ (j:ℚ) := by exact_mod_cast hij
      linarith
    have hkey : lowerPrice + (j:ℚ) * ((upperPrice - lowerPrice) / ((m:ℚ) + 1 - 1)) -
        (lowerPrice + (i:ℚ) * ((upperPrice - lowerPrice) / ((m:ℚ) + 1 - 1))) =
        ((j:ℚ) - (i:ℚ)) * ((upperPrice - lowerPrice) / ((m:ℚ) + 1 - 1)) := by
      ring
    push_cast
    rw [hkey]
    calc (1:ℚ) / 10 ^ cfg.pricePrecision
        < (upperPrice - lowerPrice) / ((m:ℚ) + 1 - 1) := by push_cast at hsp; exact hsp
      _ = 1 * ((upperPrice - lowerPrice) / ((m:ℚ) + 1 - 1)) := by ring
      _ ≤ ((j:ℚ) - (i:ℚ)) * ((upperPrice - lowerPrice) / ((m:ℚ) + 1 - 1)) := by
          apply mul_le_mul_of_nonneg_right hone
          have : (0:ℚ) < (upperPrice - lowerPrice) / ((m:ℚ) + 1 - 1) := by
            push_cast at hsp
            linarith
          linarith

/-- Witness for C3: the spec's example grid 45000-55000 with 10 levels has
exactly 10 strictly increasing prices. -/
theorem grid_price_ladder_shape_witness :
    (gridPriceList defaultConfig 45000 55000 10).length = 10 ∧
    (gridPriceList defaultConfig 45000 55000 10).Pairwise (· < ·) := by
  have h := grid_price_ladder_shape defaultConfig 45000 55000 10 (by norm_num)
  refine ⟨h.1, h.2.2.2.2.2 ?_⟩
  have hpp : defaultConfig.pricePrecision = 2 := rfl
  rw [hpp]
  norm_num

/-- Counterexample for C3: with the default configuration (price precision 2,
minimum price 0.01, minimum spacing percent 0.5), the grid lower=0.01,
upper=0.0101, levels=2 passes the parameter validation and the spacing-percent
gate (spacing percent is 1), yet both generated prices round to 0.01, so the
generated sequence is not strictly increasing. -/
theorem grid_price_ladder_counterexample :
    (validateGridParameters defaultConfig (1/100) (101/10000) 2).1 = true ∧
    defaultGridConfig.minSpacing ≤
      ((101/10000 - 1/100) / ((2:ℚ) - 1)) / (1/100) * 100 ∧
    gridPriceList defaultConfig (1/100) (101/10000) 2 = [1/100, 1/100] ∧
    ¬ (gridPriceList defaultConfig (1/100) (101/10000) 2).Pairwise (· < ·) := by
  have hpp : defaultConfig.pricePrecision = 2 := rfl
  have haux1 : formatPrice defaultConfig (1/100) = 1/100 := by
    rw [formatPrice_eq_intCast defaultConfig (1/100) 1 (by rw [hpp]; norm_num), hpp]
    norm_num
  have haux2 : formatPrice defaultConfig (101/10000) = 1/100 := by
    unfold formatPrice
    rw [hpp]
    have hx : (101/10000 : ℚ) * 10 ^ 2 = 101/100 := by norm_num
    rw [hx, rheInt_eq_of_floor (101/100) 1 (by norm_num) (by norm_num)]
    norm_num
  have e0 : (1/100 : ℚ) + ((0:ℕ):ℚ) * ((101/10000 - 1/100) / (((2:ℕ):ℚ) - 1)) = 1/100 := by
    norm_num
  have e1 : (1/100 : ℚ) + ((1:ℕ):ℚ) * ((101/10000 - 1/100) / (((2:ℕ):ℚ) - 1)) = 101/10000 := by
    norm_num
  have hlist : gridPriceList defaultConfig (1/100) (101/10000) 2 = [1/100, 1/100] := by
    rw [gridPriceList, show List.range 2 = [0, 1] from rfl, List.map_cons, List.map_cons,
      List.map_nil, e0, e1, haux1, haux2]
  refine ⟨?_, ?_, hlist, ?_⟩
  · have hlow : (validatePrice defaultConfig (1/100)).1 = true := by
      norm_num [validatePrice, defaultConfig]
    have hup : (validatePrice defaultConfig (101/10000)).1 = true := by
      norm_num [validatePrice, defaultConfig]
    unfold validateGridParameters
    rw [hlow, hup]
    norm_num
  · norm_num [defaultGridConfig]
  · rw [hlist]
    simp only [List.pairwise_cons, List.mem_singleton]
    intro h
    exact absurd (h.1 (1/100) rfl) (lt_irrefl _)

/-- Witness for C8: a 100-200 grid with 3 levels at current price 150: the
ladder is [100, 150, 200], every level passes the per-order checks, and the
requests are exactly those selected by the neutral placement policy (a BUY
below, the mid level skipped, a SELL above). -/
theorem grid_neutral_mode_policy_witness :
    gridPriceList defaultConfig 100 200 3 = [100, 150, 200] ∧
    createActs (createGridOrders defaultConfig defaultGridConfig
        ⟨fun _ => none, fun _ _ => true, some 150⟩
        "BTCUSDT" 100 200 3 (some 3) "neutral").2 =
      (gridPriceList defaultConfig 100 200 3).filterMap (fun p =>
        if p < 150 then
          some (limitParams defaultConfig "BTCUSDT" "BUY"
            (formatQuantity defaultConfig (3 / ((3:ℕ):ℚ))) p "GTC" false true)
        else if (150:ℚ) < p then
          some (limitParams defaultConfig "BTCUSDT" "SELL"
            (formatQuantity defaultConfig (3 / ((3:ℕ):ℚ))) p "GTC" false true)
        else none) := by
  have hpp : defaultConfig.pricePrecision = 2 := rfl
  have hqp : defaultConfig.quantityPrecision = 3 := rfl
  have hsp : ((200:ℚ) - 100) / (((3:ℕ):ℚ) - 1) = 50 := by
    push_cast
    norm_num
  have e0 : (100:ℚ) + ((0:ℕ):ℚ) * (((200:ℚ) - 100) / (((3:ℕ):ℚ) - 1)) = 100 := by
    rw [hsp]
    norm_num
  have e1 : (100:ℚ) + ((1:ℕ):ℚ) * (((200:ℚ) - 100) / (((3:ℕ):ℚ) - 1)) = 150 := by
    rw [hsp]
    norm_num
  have e2 : (100:ℚ) + ((2:ℕ):ℚ) * (((200:ℚ) - 100) / (((3:ℕ):ℚ) - 1)) = 200 := by
    rw [hsp]
    norm_num
  have f0 : formatPrice defaultConfig (100:ℚ) = 100 := by
    rw [formatPrice_eq_intCast defaultConfig (100:ℚ) 10000 (by rw [hpp]; norm_num), hpp]
    norm_num
  have f1 : formatPrice defaultConfig (150:ℚ) = 150 := by
    rw [formatPrice_eq_intCast defaultConfig (150:ℚ) 15000 (by rw [hpp]; norm_num), hpp]
    norm_num
  have f2 : formatPrice defaultConfig (200:ℚ) = 200 := by
    rw [formatPrice_eq_intCast defaultConfig (200:ℚ) 20000 (by rw [hpp]; norm_num), hpp]
    norm_num
  have hgp : gridPriceList defaultConfig 100 200 3 = [100, 150, 200] := by
    rw [gridPriceList, show List.range 3 = [0, 1, 2] from rfl, List.map_cons,
      List.map_cons, List.map_cons, List.map_nil, e0, e1, e2, f0, f1, f2]
  have hq1 : formatQuantity defaultConfig (3 / ((3:ℕ):ℚ)) = 1 := by
    rw [show (3:ℚ) / ((3:ℕ):ℚ) = 1 from by push_cast; norm_num,
      formatQuantity_eq_intCast defaultConfig (1:ℚ) 1000 (by rw [hqp]; norm_num), hqp]
    norm_num
  have hv : (validateGridParameters defaultConfig 100 200 3).1 = true := by
    norm_num [validateGridParameters, validatePrice, defaultConfig]
  have hins : ∀ p ∈ gridPriceList defaultConfig 100 200 3,
      (validatePrice defaultConfig p).1 = true ∧
      (validateQuantity defaultConfig
        (formatQuantity defaultConfig (3 / ((3:ℕ):ℚ))) (some p)).1 = true := by
    intro p hp
    rw [hgp] at hp
    simp only [List.mem_cons, List.not_mem_nil, or_false] at hp
    rcases hp with rfl | rfl | rfl
    · exact ⟨by norm_num [validatePrice, defaultConfig],
        by rw [hq1]; norm_num [validateQuantity, defaultConfig]⟩
    · exact ⟨by norm_num [validatePrice, defaultConfig],
        by rw [hq1]; norm_num [validateQuantity, defaultConfig]⟩
    · exact ⟨by norm_num [validatePrice, defaultConfig],
        by rw [hq1]; norm_num [validateQuantity, defaultConfig]⟩
  refine ⟨hgp, ?_⟩
  exact grid_neutral_mode_policy defaultConfig defaultGridConfig
    ⟨fun _ => none, fun _ _ => true, some 150⟩ "BTCUSDT" 100 200 3 3 150
    hv (by decide)
    (by rw [show ((200:ℚ) - 100) / (((3:ℕ):ℚ) - 1) / 100 * 100 = 50 from by
      rw [hsp]; norm_num]
        norm_num [defaultGridConfig])
    rfl hins

/-! TWAP lemmas and claims C2, C5 -/

theorem sumExecQty_append (a b : List Order) :
    sumExecQty (a ++ b) = sumExecQty a + sumExecQty b := by
  simp [sumExecQty]

theorem validateQuantity_none_pos (cfg : VConfig) (q : ℚ) (h : 0 < q) :
    (validateQuantity cfg q none).1 = true := by
  unfold validateQuantity
  rw [if_neg (not_le.mpr h)]

theorem twapLoop_spec (cfg : VConfig) (env : Env) (symbol side : String)
    (Q : ℚ) (N : ℕ)
    (hs : (validateSymbol symbol).1 = true)
    (hside : (validateSide side).1 = true)
    (hc : 0 < formatQuantity cfg (Q / (N:ℚ))) :
    ∀ (r i : ℕ) (os : List Order), r + i = N →
      0 < formatQuantity cfg (Q - sumExecQty (os ++
          (List.range' i (N - 1 - i)).filterMap env.create)) →
      (twapLoop cfg env symbol side Q N r i os i).1 =
          os ++ (List.range' i r).filterMap env.create ∧
        chunkSizes (twapLoop cfg env symbol side Q N r i os i).2.1 =
          (List.range' i r).map (fun j => if j = N - 1
            then formatQuantity cfg (Q - sumExecQty (os ++
              (List.range' i (N - 1 - i)).filterMap env.create))
            else formatQuantity cfg (Q / (N:ℚ))) ∧
        (∀ j ∈ List.range' i r, env.create j = none →
          Act.chunkFail j ∈ (twapLoop cfg env symbol side Q N r i os i).2.1) ∧
        (twapLoop cfg env symbol side Q N r i os i).2.2 = i + r := by
  intro r
  induction r with
  | zero =>
    intro i os hri hlast
    refine ⟨by simp [twapLoop], by simp [twapLoop, chunkSizes], by simp, by simp [twapLoop]⟩
  | succ r' ih =>
    intro i os hri hlast
    by_cases hr0 : r' = 0
    -- final chunk: its size is recomputed from the executed quantities so far
    · subst hr0
      have hiN : i = N - 1 := by omega
      have hz : N - 1 - i = 0 := by omega
      rw [hz] at hlast
      simp only [List.range', List.filterMap_nil, List.append_nil] at hlast
      have hq := validateQuantity_none_pos cfg _ hlast
      cases hcr : env.create i with
      | none =>
        have hstep : twapLoop cfg env symbol side Q N (0+1) i os i =
            (os, [Act.chunk i (formatQuantity cfg (Q - sumExecQty os)),
              Act.create (marketParams cfg symbol side
                (formatQuantity cfg (Q - sumExecQty os)) false),
              Act.chunkFail i], i + 1) := by
          rw [twapLoop]
          simp only [if_pos hiN]
          rw [placeMarketOrder_valid cfg env i symbol side _ false hs hside hq]
          simp [twapLoop, hcr]
        rw [hstep]
        refine ⟨?_, ?_, ?_, ?_⟩
        · simp [List.range'_succ, List.range', hcr]
        · rw [hz]
          simp [List.range'_succ, List.range', chunkSizes, hiN]
        · intro j hj _
          have : j = i := by
            simp [List.range'_succ, List.range'] at hj
            omega
          subst this
          simp
        · rfl
      | some o =>
        have hstep : twapLoop cfg env symbol side Q N (0+1) i os i =
            (os ++ [o], [Act.chunk i (formatQuantity cfg (Q - sumExecQty os)),
              Act.create (marketParams cfg symbol side
                (formatQuantity cfg (Q - sumExecQty os)) false)], i + 1) := by
          rw [twapLoop]
          simp only [if_pos hiN]
          rw [placeMarketOrder_valid cfg env i symbol side _ false hs hside hq]
          simp [twapLoop, hcr]
        rw [hstep]
        refine ⟨?_, ?_, ?_, ?_⟩
        · simp [List.range'_succ, List.range', hcr]
        · rw [hz]
          simp [List.range'_succ, List.range', chunkSizes, hiN]
        · intro j hj hjn
          have : j = i := by
            simp [List.range'_succ, List.range'] at hj
            omega
          subst this
          rw [hcr] at hjn
          cases hjn
        · rfl
    -- non-final chunk: fixed size, then the loop continues
    · have hiN : ¬(i = N - 1) := by omega
      have hsplit : List.range' i (N - 1 - i) =
          i :: List.range' (i+1) (N - 1 - (i+1)) := by
        have h' : N - 1 - i = (N - 1 - (i+1)) + 1 := by omega
        rw [h', List.range'_succ]
      cases hcr : env.create i with
      | none =>
        have hEE : os ++ (List.range' i (N - 1 - i)).filterMap env.create =
            os ++ (List.range' (i+1) (N - 1 - (i+1))).filterMap env.create := by
          rw [hsplit, List.filterMap_cons, hcr]
        have ihh := ih (i+1) os (by omega) (by rw [← hEE]; exact hlast)
        have hstep : twapLoop cfg env symbol side Q N (r'+1) i os i =
            ((twapLoop cfg env symbol side Q N r' (i+1) os (i+1)).1,
              Act.chunk i (formatQuantity cfg (Q / (N:ℚ))) ::
                Act.create (marketParams cfg symbol side
                  (formatQuantity cfg (Q / (N:ℚ))) false) ::
                Act.chunkFail i ::
                (twapLoop cfg env symbol side Q N r' (i+1) os (i+1)).2.1,
              (twapLoop cfg env symbol side Q N r' (i+1) os (i+1)).2.2) := by
          rw [twapLoop]
          simp only [if_neg hiN]
          rw [placeMarketOrder_valid cfg env i symbol side _ false hs hside
            (validateQuantity_none_pos cfg _ hc)]
          simp [hcr]
        rw [hstep]
        refine ⟨?_, ?_, ?_, ?_⟩
        · rw [ihh.1, List.range'_succ, List.filterMap_cons, hcr]
        · simp only [chunkSizes, List.filterMap_cons]
          rw [show (List.filterMap (fun a => match a with
              | Act.chunk _ s => some s | _ => none)
              (twapLoop cfg env symbol side Q N r' (i+1) os (i+1)).2.1) =
              chunkSizes (twapLoop cfg env symbol side Q N r' (i+1) os (i+1)).2.1
              from rfl]
          rw [ihh.2.1, ← hEE, List.range'_succ, List.map_cons, if_neg hiN]
        · intro j hj hjn
          rw [List.range'_succ] at hj
          rcases List.mem_cons.mp hj with hj | hj
          · subst hj
            simp
          · have := ihh.2.2.1 j hj hjn
            simp [this]
        · rw [ihh.2.2.2]
          omega
      | some o =>
        have hEE : os ++ (List.range' i (N - 1 - i)).filterMap env.create =
            (os ++ [o]) ++ (List.range' (i+1) (N - 1 - (i+1))).filterMap env.create := by
          rw [hsplit, List.filterMap_cons, hcr]
          simp
        have ihh := ih (i+1) (os ++ [o]) (by omega) (by rw [← hEE]; exact hlast)
        have hstep : twapLoop cfg env symbol side Q N (r'+1) i os i =
            ((twapLoop cfg env symbol side Q N r' (i+1) (os ++ [o]) (i+1)).1,
              Act.chunk i (formatQuantity cfg (Q / (N:ℚ))) ::
                Act.create (marketParams cfg symbol side
                  (formatQuantity cfg (Q / (N:ℚ))) false) ::
                (twapLoop cfg env symbol side Q N r' (i+1) (os ++ [o]) (i+1)).2.1,
              (twapLoop cfg env symbol side Q N r' (i+1) (os ++ [o]) (i+1)).2.2) := by
          rw [twapLoop]
          simp only [if_neg hiN]
          rw [placeMarketOrder_valid cfg env i symbol side _ false hs hside
            (validateQuantity_none_pos cfg _ hc)]
          simp [hcr]
        rw [hstep]
        refine ⟨?_, ?_, ?_, ?_⟩
        · rw [ihh.1, List.range'_succ, List.filterMap_cons, hcr]
          simp
        · simp only [chunkSizes, List.filterMap_cons]
          rw [show (List.filterMap (fun a => match a with
              | Act.chunk _ s => some s | _ => none)
              (twapLoop cfg env symbol side Q N r' (i+1) (os ++ [o]) (i+1)).2.1) =
              chunkSizes (twapLoop cfg env symbol side Q N r' (i+1) (os ++ [o]) (i+1)).2.1
              from rfl]
          rw [ihh.2.1, ← hEE, List.range'_succ, List.map_cons, if_neg hiN]
        · intro j hj hjn
          rw [List.range'_succ] at hj
          rcases List.mem_cons.mp hj with hj | hj
          · subst hj
            rw [hcr] at hjn
            cases hjn
          · have := ihh.2.2.1 j hj hjn
            simp [this]
        · rw [ihh.2.2.2]
          omega

theorem validateTwapParameters_bounds (cfg : VConfig) (Q : ℚ) (chunks interval : ℕ)
    (hv : (validateTwapParameters cfg Q chunks interval).1 = true) :
    0 < Q ∧ 2 ≤ chunks ∧ chunks ≤ 100 ∧ 1 ≤ interval ∧ interval ≤ 3600 := by
  unfold validateTwapParameters validateQuantity at hv
  split_ifs at hv with h1 h2 h3 h4 h5 h6
  all_goals simp at hv
  exact ⟨not_le.mp h1, by omega, by omega, by omega, by omega⟩

theorem executeTwapOrder_valid (cfg : VConfig) (tcfg : TwapConfig) (env : Env)
    (symbol side : String) (Q : ℚ) (N T : ℕ)
    (hv : (validateTwapParameters cfg Q N T).1 = true)
    (hs : (validateSymbol symbol).1 = true)
    (hside : (validateSide side).1 = true) :
    executeTwapOrder cfg tcfg env symbol side Q (some N) (some T) =
      (some (twapLoop cfg env symbol side Q N N 0 [] 0).1,
        (twapLoop cfg env symbol side Q N N 0 [] 0).2.1) := by
  have hb := validateTwapParameters_bounds cfg Q N T hv
  have hN0 : ¬(N = 0) := by omega
  have hT0 : ¬(T = 0) := by omega
  unfold executeTwapOrder
  simp [hN0, hT0, hv, hs, hside]

theorem sumExec_filterMap_fill (env : Env) (c : ℚ) :
    ∀ m : ℕ, (∀ j < m, ∃ o, env.create j = some o ∧ o.executedQty = c) →
      sumExecQty ((List.range' 0 m).filterMap env.create) = (m : ℚ) * c := by
  intro m
  induction m with
  | zero =>
    intro _
    simp [sumExecQty]
  | succ m ih =>
    intro h
    obtain ⟨o, ho, hq⟩ := h m (by omega)
    rw [List.range'_1_concat, List.filterMap_append, sumExecQty_append,
      ih (fun j hj => h j (by omega))]
    simp only [Nat.zero_add, List.filterMap_cons, List.filterMap_nil, ho]
    rw [show sumExecQty [o] = o.executedQty from by simp [sumExecQty], hq]
    push_cast
    ring

/-- C2: in a valid TWAP execution the logged per-chunk target sizes are: the
formatted value of Q/N for chunks 0 through N-2, then, for the final chunk,
the formatted value of Q minus the sum of the executed quantities of all
previously returned orders; when every earlier chunk returns an order
executed at exactly the formatted Q/N, those target sizes sum to Q to within
one quantity-precision unit. -/
theorem twap_chunk_sizing (cfg : VConfig) (tcfg : TwapConfig) (env : Env)
    (symbol side : String) (Q : ℚ) (N T : ℕ)
    (hv : (validateTwapParameters cfg Q N T).1 = true)
    (hs : (validateSymbol symbol).1 = true)
    (hside : (validateSide side).1 = true)
    (hc : 0 < formatQuantity cfg (Q / (N:ℚ)))
    (hlast : 0 < formatQuantity cfg (Q - sumExecQty
      ((List.range' 0 (N - 1)).filterMap env.create))) :
    chunkSizes (executeTwapOrder cfg tcfg env symbol side Q (some N) (some T)).2 =
      List.replicate (N - 1) (formatQuantity cfg (Q / (N:ℚ))) ++
        [formatQuantity cfg (Q - sumExecQty
          ((List.range' 0 (N - 1)).filterMap env.create))] ∧
    ((∀ j < N - 1, ∃ o, env.create j = some o ∧
        o.executedQty = formatQuantity cfg (Q / (N:ℚ))) →
      |((N:ℚ) - 1) * formatQuantity cfg (Q / (N:ℚ)) +
          formatQuantity cfg (Q - sumExecQty
            ((List.range' 0 (N - 1)).filterMap env.create)) - Q| ≤
        1 / 10 ^ cfg.quantityPrecision) := by
  have hb := validateTwapParameters_bounds cfg Q N T hv
  have hN2 : 2 ≤ N := hb.2.1
  have hloop := twapLoop_spec cfg env symbol side Q N hs hside hc N 0 []
    (by omega) (by simpa using hlast)
  rw [executeTwapOrder_valid cfg tcfg env symbol side Q N T hv hs hside]
  have hr : List.range' 0 N = List.range' 0 (N-1) ++ [N-1] := by
    conv_lhs => rw [show N = (N-1)+1 from by omega]
    rw [List.range'_1_concat, Nat.zero_add]
  constructor
  · rw [show (some (twapLoop cfg env symbol side Q N N 0 [] 0).1,
        (twapLoop cfg env symbol side Q N N 0 [] 0).2.1).2 =
        (twapLoop cfg env symbol side Q N N 0 [] 0).2.1 from rfl]
    rw [hloop.2.1, hr, List.map_append, List.map_cons, List.map_nil, if_pos rfl]
    congr 1
    · apply List.eq_replicate_iff.mpr
      refine ⟨by simp, ?_⟩
      intro b hb'
      rw [List.mem_map] at hb'
      obtain ⟨j, hj, rfl⟩ := hb'
      rw [List.mem_range'_1] at hj
      rw [if_neg (by omega)]
  · intro hfill
    have hsum := sumExec_filterMap_fill env (formatQuantity cfg (Q / (N:ℚ))) (N-1) hfill
    rw [hsum]
    have hcast : ((N - 1 : ℕ) : ℚ) = (N:ℚ) - 1 := by
      have : 1 ≤ N := by omega
      push_cast [this]
      ring
    rw [hcast]
    have hkey : ((N:ℚ) - 1) * formatQuantity cfg (Q / (N:ℚ)) +
        formatQuantity cfg (Q - ((N:ℚ) - 1) * formatQuantity cfg (Q / (N:ℚ))) - Q =
        formatQuantity cfg (Q - ((N:ℚ) - 1) * formatQuantity cfg (Q / (N:ℚ))) -
          (Q - ((N:ℚ) - 1) * formatQuantity cfg (Q / (N:ℚ))) := by
      ring
    rw [hkey]
    calc |formatQuantity cfg (Q - ((N:ℚ) - 1) * formatQuantity cfg (Q / (N:ℚ))) -
          (Q - ((N:ℚ) - 1) * formatQuantity cfg (Q / (N:ℚ)))|
        ≤ 1/2 / 10 ^ cfg.quantityPrecision := abs_formatQuantity_sub_le cfg _
      _ ≤ 1 / 10 ^ cfg.quantityPrecision := by
          gcongr
          norm_num

/-- Witness for C2: Q = 4 split into 2 chunks against an exchange that fills
each request at exactly the formatted chunk size 2; the logged target sizes
are the formatted 4/2 and the formatted remainder, and they sum to 4 within
one quantity-precision unit. -/
theorem twap_chunk_sizing_witness :
    chunkSizes (executeTwapOrder defaultConfig defaultTwapConfig
        ⟨fun _ => some (sampleOrder 5 2 100), fun _ _ => true, none⟩
        "BTCUSDT" "BUY" 4 (some 2) (some 5)).2 =
      List.replicate (2 - 1) (formatQuantity defaultConfig (4 / ((2:ℕ):ℚ))) ++
        [formatQuantity defaultConfig (4 - sumExecQty
          ((List.range' 0 (2 - 1)).filterMap
            (fun _ => some (sampleOrder 5 2 100))))] ∧
    |(((2:ℕ):ℚ) - 1) * formatQuantity defaultConfig (4 / ((2:ℕ):ℚ)) +
        formatQuantity defaultConfig (4 - sumExecQty
          ((List.range' 0 (2 - 1)).filterMap (fun _ => some (sampleOrder 5 2 100)))) - 4| ≤
      1 / 10 ^ defaultConfig.quantityPrecision := by
  have hqp : defaultConfig.quantityPrecision = 3 := rfl
  have hcast : ((2:ℕ):ℚ) = 2 := by norm_num
  have hc2 : formatQuantity defaultConfig (4 / ((2:ℕ):ℚ)) = 2 := by
    rw [hcast, formatQuantity_eq_intCast defaultConfig ((4:ℚ)/2) 2000
      (by rw [hqp]; norm_num), hqp]
    norm_num
  have hfm : (List.range' 0 (2 - 1)).filterMap
      (fun _ => some (sampleOrder 5 2 100)) = [sampleOrder 5 2 100] := rfl
  have hsum : sumExecQty [sampleOrder 5 2 100] = 2 := by
    simp [sumExecQty, sampleOrder]
  have hl2 : formatQuantity defaultConfig
      (4 - sumExecQty ((List.range' 0 (2 - 1)).filterMap
        (fun _ => some (sampleOrder 5 2 100)))) = 2 := by
    rw [hfm, hsum, show (4:ℚ) - 2 = 2 from by norm_num,
      formatQuantity_eq_intCast defaultConfig (2:ℚ) 2000 (by rw [hqp]; norm_num), hqp]
    norm_num
  have hv : (validateTwapParameters defaultConfig 4 2 5).1 = true := by
    norm_num [validateTwapParameters, validateQuantity, defaultConfig]
  have h := twap_chunk_sizing defaultConfig defaultTwapConfig
    ⟨fun _ => some (sampleOrder 5 2 100), fun _ _ => true, none⟩
    "BTCUSDT" "BUY" 4 2 5 hv (by decide) (by decide)
    (by rw [hc2]; norm_num) (by rw [hl2]; norm_num)
  refine ⟨h.1, h.2 ?_⟩
  intro j _
  exact ⟨sampleOrder 5 2 100, rfl,
    by rw [show (sampleOrder 5 2 100).executedQty = 2 from rfl, hc2]⟩

/-- C5 (amended): in a valid TWAP execution a failed chunk is logged and the
scheduler continues: the returned order list is exactly the orders of the
succeeded chunks in order, and whenever at least one chunk succeeded the
summary's total_orders equals that number; when no chunk succeeded the
summary is the empty dict (modelled as `none`), so no total_orders is
reported. -/
theorem twap_partial_completion (cfg : VConfig) (tcfg : TwapConfig) (env : Env)
    (symbol side : String) (Q : ℚ) (N T : ℕ)
    (hv : (validateTwapParameters cfg Q N T).1 = true)
    (hs : (validateSymbol symbol).1 = true)
    (hside : (validateSide side).1 = true)
    (hc : 0 < formatQuantity cfg (Q / (N:ℚ)))
    (hlast : 0 < formatQuantity cfg (Q - sumExecQty
      ((List.range' 0 (N - 1)).filterMap env.create))) :
    (executeTwapOrder cfg tcfg env symbol side Q (some N) (some T)).1 =
      some ((List.range' 0 N).filterMap env.create) ∧
    (∀ j < N, env.create j = none →
      Act.chunkFail j ∈ (executeTwapOrder cfg tcfg env symbol side Q (some N) (some T)).2) ∧
    ((List.range' 0 N).filterMap env.create ≠ [] →
      ∃ t, getTwapSummary ((List.range' 0 N).filterMap env.create) = some t ∧
        t.totalOrders = ((List.range' 0 N).filterMap env.create).length) ∧
    ((List.range' 0 N).filterMap env.create = [] →
      getTwapSummary ((List.range' 0 N).filterMap env.create) = none) := by
  have hb := validateTwapParameters_bounds cfg Q N T hv
  have hloop := twapLoop_spec cfg env symbol side Q N hs hside hc N 0 []
    (by omega) (by simpa using hlast)
  rw [executeTwapOrder_valid cfg tcfg env symbol side Q N T hv hs hside]
  refine ⟨?_, ?_, ?_, ?_⟩
  · rw [show (some (twapLoop cfg env symbol side Q N N 0 [] 0).1,
      (twapLoop cfg env symbol side Q N N 0 [] 0).2.1).1 =
      some (twapLoop cfg env symbol side Q N N 0 [] 0).1 from rfl, hloop.1]
    simp
  · intro j hj hjn
    exact hloop.2.2.1 j (by rw [List.mem_range'_1]; omega) hjn
  · intro hne
    unfold getTwapSummary
    rw [if_neg hne]
    exact ⟨_, rfl, rfl⟩
  · intro hnil
    unfold getTwapSummary
    rw [if_pos hnil]

/-- Witness for C5: Q = 4 in 2 chunks where chunk 0 fails and chunk 1 is
filled: the failure is logged, the returned list holds exactly the one
successful order, and the summary reports total_orders equal to 1. -/
theorem twap_partial_completion_witness :
    (executeTwapOrder defaultConfig defaultTwapConfig
        ⟨fun k => if k = 0 then none else some (sampleOrder 9 2 100),
          fun _ _ => true, none⟩
        "BTCUSDT" "BUY" 4 (some 2) (some 5)).1 =
      some ((List.range' 0 2).filterMap
        (fun k => if k = 0 then none else some (sampleOrder 9 2 100))) ∧
    Act.chunkFail 0 ∈ (executeTwapOrder defaultConfig defaultTwapConfig
        ⟨fun k => if k = 0 then none else some (sampleOrder 9 2 100),
          fun _ _ => true, none⟩
        "BTCUSDT" "BUY" 4 (some 2) (some 5)).2 ∧
    ∃ t, getTwapSummary ((List.range' 0 2).filterMap
        (fun k => if k = 0 then none else some (sampleOrder 9 2 100))) = some t ∧
      t.totalOrders = ((List.range' 0 2).filterMap
        (fun k => if k = 0 then none else some (sampleOrder 9 2 100))).length := by
  have hqp : defaultConfig.quantityPrecision = 3 := rfl
  have hcast : ((2:ℕ):ℚ) = 2 := by norm_num
  have hc2 : formatQuantity defaultConfig (4 / ((2:ℕ):ℚ)) = 2 := by
    rw [hcast, formatQuantity_eq_intCast defaultConfig ((4:ℚ)/2) 2000
      (by rw [hqp]; norm_num), hqp]
    norm_num
  have hfm : (List.range' 0 (2 - 1)).filterMap
      (fun k => if k = 0 then (none : Option Order)
        else some (sampleOrder 9 2 100)) = [] := rfl
  have hl2 : formatQuantity defaultConfig
      (4 - sumExecQty ((List.range' 0 (2 - 1)).filterMap
        (fun k => if k = 0 then none else some (sampleOrder 9 2 100)))) = 4 := by
    rw [hfm, show sumExecQty [] = 0 from by simp [sumExecQty],
      show (4:ℚ) - 0 = 4 from by norm_num,
      formatQuantity_eq_intCast defaultConfig (4:ℚ) 4000 (by rw [hqp]; norm_num), hqp]
    norm_num
  have hv : (validateTwapParameters defaultConfig 4 2 5).1 = true := by
    norm_num [validateTwapParameters, validateQuantity, defaultConfig]
  have h := twap_partial_completion defaultConfig defaultTwapConfig
    ⟨fun k => if k = 0 then none else some (sampleOrder 9 2 100), fun _ _ => true, none⟩
    "BTCUSDT" "BUY" 4 2 5 hv (by decide) (by decide)
    (by rw [hc2]; norm_num) (by rw [hl2]; norm_num)
  exact ⟨h.1, h.2.1 0 (by omega) rfl, h.2.2.1 (by
    rw [show (List.range' 0 2).filterMap
      (fun k => if k = 0 then (none : Option Order) else some (sampleOrder 9 2 100)) =
      [sampleOrder 9 2 100] from rfl]
    exact List.cons_ne_nil _ _)⟩

/-- Counterexample for C5: a TWAP execution of Q = 4 in 2 chunks where every
chunk placement fails returns the empty order list, but the summary for that
execution is the empty dict (`none`), which reports no total_orders at all —
so the claim that the summary's total_orders always equals the number of
succeeded chunks fails when that number is zero. -/
theorem twap_partial_completion_counterexample :
    (executeTwapOrder defaultConfig defaultTwapConfig
        ⟨fun _ => none, fun _ _ => true, none⟩
        "BTCUSDT" "BUY" 4 (some 2) (some 5)).1 = some [] ∧
    ¬ ∃ t, getTwapSummary [] = some t := by
  constructor
  · have hqp : defaultConfig.quantityPrecision = 3 := rfl
    have hcast : ((2:ℕ):ℚ) = 2 := by norm_num
    have hc2 : formatQuantity defaultConfig (4 / ((2:ℕ):ℚ)) = 2 := by
      rw [hcast, formatQuantity_eq_intCast defaultConfig ((4:ℚ)/2) 2000
        (by rw [hqp]; norm_num), hqp]
      norm_num
    have hl2 : formatQuantity defaultConfig
        (4 - sumExecQty ((List.range' 0 (2 - 1)).filterMap
          (fun _ => (none : Option Order)))) = 4 := by
      rw [show (List.range' 0 (2 - 1)).filterMap (fun _ => (none : Option Order)) = []
        from rfl,
        show sumExecQty [] = 0 from by simp [sumExecQty],
        show (4:ℚ) - 0 = 4 from by norm_num,
        formatQuantity_eq_intCast defaultConfig (4:ℚ) 4000 (by rw [hqp]; norm_num), hqp]
      norm_num
    have hv : (validateTwapParameters defaultConfig 4 2 5).1 = true := by
      norm_num [validateTwapParameters, validateQuantity, defaultConfig]
    have hloop := twapLoop_spec defaultConfig
      ⟨fun _ => none, fun _ _ => true, none⟩ "BTCUSDT" "BUY" 4 2
      (by decide) (by decide) (by rw [hc2]; norm_num) 2 0 []
      (by omega) (by simpa using (by rw [hl2]; norm_num :
        (0:ℚ) < formatQuantity defaultConfig
          (4 - sumExecQty ((List.range' 0 (2 - 1)).filterMap
            (fun _ => (none : Option Order))))))
    rw [executeTwapOrder_valid defaultConfig defaultTwapConfig
      ⟨fun _ => none, fun _ _ => true, none⟩ "BTCUSDT" "BUY" 4 2 5 hv
      (by decide) (by decide)]
    rw [show (some (twapLoop defaultConfig ⟨fun _ => none, fun _ _ => true, none⟩
      "BTCUSDT" "BUY" 4 2 2 0 [] 0).1,
      (twapLoop defaultConfig ⟨fun _ => none, fun _ _ => true, none⟩
      "BTCUSDT" "BUY" 4 2 2 0 [] 0).2.1).1 =
      some (twapLoop defaultConfig ⟨fun _ => none, fun _ _ => true, none⟩
      "BTCUSDT" "BUY" 4 2 2 0 [] 0).1 from rfl, hloop.1]
    rfl
  · rintro ⟨t, ht⟩
    rw [show getTwapSummary [] = none from rfl] at ht
    cases ht

end TradingBot
